import Mathlib

/-!
# Midnight Commander, `lib/widget/mouse.c`: the high-level mouse API

A shallow embedding of `init_mouse_event`, `easy_mouse_translator` and
`set_easy_mouse_callback`.

* The C function mutates the widget (`w->Mouse.capture`), the raw event
  (`event->buttons`) and the file-scope variable `last_buttons_down`, and it calls
  the widget's callback. Here the mutable state is passed in and returned: `Outcome`
  holds the returned value, the widget, `last_buttons_down` and the raw event as they
  are when the function returns, and the list of callback invocations in order.
* The callback receives the widget and a pointer to the local `mouse_event_t`; it is a
  function returning the widget and the record as it leaves them.
* Coordinates are C `int`s: `Int` values, with the subtractions of `init_mouse_event`
  wrapping to 32 bits (`int_sub`); bit masks are `Nat` with `&&&` and `|||`.
-/

namespace Mc

/-! ## Constants of the headers -/

/-- Modelled from the spec: `GPM_MOVE` is declared in lib/tty/mouse.h, which is not among the
sources. The spec describes the event type as a bitmask with a move bit; the value is GPM's. -/
def GPM_MOVE : Nat := 1

/-- Modelled from the spec: `GPM_DRAG`, the drag bit of the type bitmask (header not among the
sources). -/
def GPM_DRAG : Nat := 2

/-- Modelled from the spec: `GPM_DOWN`, the press bit of the type bitmask (header not among the
sources). -/
def GPM_DOWN : Nat := 4

/-- Modelled from the spec: `GPM_UP`, the release bit of the type bitmask (header not among the
sources). -/
def GPM_UP : Nat := 8

/-- Modelled from the spec: `GPM_SINGLE`, click-multiplicity bit (header not among the sources). -/
def GPM_SINGLE : Nat := 16

/-- Modelled from the spec: `GPM_DOUBLE`, click-multiplicity bit (header not among the sources). -/
def GPM_DOUBLE : Nat := 32

/-- Modelled from the spec: `GPM_TRIPLE`, click-multiplicity bit (header not among the sources). -/
def GPM_TRIPLE : Nat := 64

/-- Modelled from the spec: `GPM_B_DOWN`, the wheel-down bit of the button mask (header not among
the sources). -/
def GPM_B_DOWN : Nat := 32

/-- Modelled from the spec: `GPM_B_UP`, the wheel-up bit of the button mask (header not among the
sources). -/
def GPM_B_UP : Nat := 16

/-- Modelled from the spec: `GPM_B_LEFT`, the left button bit (header not among the sources). -/
def GPM_B_LEFT : Nat := 4

/-- Modelled from the spec: `GPM_B_MIDDLE`, the middle button bit (header not among the
sources). -/
def GPM_B_MIDDLE : Nat := 2

/-- Modelled from the spec: `GPM_B_RIGHT`, the right button bit (header not among the sources). -/
def GPM_B_RIGHT : Nat := 1

/-! ## Types of the headers -/

/-- Modelled from the spec: `mouse_msg_t` is declared in lib/widget/mouse.h, not among the
sources; the spec lists the message kinds Down, Up, Drag, Move, Click, ScrollUp, ScrollDown.
The value `0` that `easy_mouse_translator` uses for "no message" is none of them and is
rendered as `none : Option mouse_msg_t`. -/
inductive mouse_msg_t where
  | MSG_MOUSE_DOWN
  | MSG_MOUSE_UP
  | MSG_MOUSE_CLICK
  | MSG_MOUSE_DRAG
  | MSG_MOUSE_MOVE
  | MSG_MOUSE_SCROLL_UP
  | MSG_MOUSE_SCROLL_DOWN
  deriving DecidableEq, Repr

/-- Modelled from the spec: the values `MOU_UNHANDLED`, `MOU_NORMAL`, `MOU_REPEAT` returned by a
low-level mouse handler are declared in lib/tty/mouse.h, not among the sources; the spec
describes a tri-state result Unhandled, Handled-Normal, Handled-Repeat. -/
inductive mou_t where
  | MOU_UNHANDLED
  | MOU_NORMAL
  | MOU_REPEAT
  deriving DecidableEq, Repr

open mouse_msg_t mou_t

/-- The raw event `Gpm_Event`: the fields the translator reads. -/
structure Gpm_Event where
  buttons : Nat
  x : Int
  y : Int
  type : Nat
  deriving DecidableEq, Repr

/-- The `result` member of `mouse_event_t`. -/
structure mouse_result_t where
  abort : Bool
  «repeat» : Bool
  deriving DecidableEq, Repr

/-- The high-level event `mouse_event_t` handed to an easy callback. -/
structure mouse_event_t where
  msg : mouse_msg_t
  x : Int
  y : Int
  count : Nat
  buttons : Nat
  result : mouse_result_t
  deriving DecidableEq, Repr

/-- The data members of `w->Mouse` (the callback slot is passed separately). -/
structure Widget_Mouse where
  capture : Bool
  forced_capture : Bool
  deriving DecidableEq, Repr

/-- The members of `Widget` that the mouse API touches. -/
structure Widget where
  x : Int
  y : Int
  cols : Int
  lines : Int
  Mouse : Widget_Mouse
  deriving DecidableEq, Repr

/-- An easy callback `void cb (Widget * w, mouse_msg_t msg, mouse_event_t * event)`: it may
write to the widget and to the event record; the result is both as the callback leaves them. -/
abbrev easy_mouse_callback := Widget → mouse_msg_t → mouse_event_t → Widget × mouse_event_t

/-! ## C `int` arithmetic -/

/-- The least value of a C `int` (32 bits, two's complement). -/
def INT_MIN : Int := -2147483648

/-- The greatest value of a C `int` (32 bits, two's complement). -/
def INT_MAX : Int := 2147483647

/-- A value is one a C `int` can hold. -/
abbrev in_int (z : Int) : Prop := INT_MIN ≤ z ∧ z ≤ INT_MAX

/-- The `int` a mathematical result becomes: itself when it is in range, reduced modulo 2^32
into the range otherwise. -/
def int_wrap (z : Int) : Int := (z - INT_MIN) % 4294967296 + INT_MIN

/-- The subtraction `a - b` of two C `int`s. -/
def int_sub (a b : Int) : Int := int_wrap (a - b)

/-! ## `init_mouse_event` (mouse.c, lines 53-64) -/

/-- Constructs the mouse event structure used with easy callbacks. The coordinates are the C
expressions `global_gpm->x - w->x - 1` and `global_gpm->y - w->y - 1`, two `int` subtractions
each. -/
def init_mouse_event (msg : mouse_msg_t) (global_gpm : Gpm_Event) (w : Widget) :
    mouse_event_t :=
  { msg := msg
    x := int_sub (int_sub global_gpm.x w.x) 1
    y := int_sub (int_sub global_gpm.y w.y) 1
    count := global_gpm.type &&& (GPM_SINGLE ||| GPM_DOUBLE ||| GPM_TRIPLE)
    buttons := global_gpm.buttons
    result := { abort := false, «repeat» := false } }

/-! ## `easy_mouse_translator` (mouse.c, lines 80-174) -/

/-- The state after the classification part of `easy_mouse_translator` (lines 89-157): the
widget, the raw event and `last_buttons_down` as written so far, and the locals `msg` and
`run_click`. -/
structure Classified where
  w : Widget
  event : Gpm_Event
  last_buttons_down : Nat
  msg : Option mouse_msg_t
  run_click : Bool
  deriving DecidableEq, Repr

/-- Lines 89-157 of `easy_mouse_translator`. `mouse_global_in_widget` is the bounds test of
lib/widget/widget-common.c, which is not among the sources: it is a parameter. -/
def classify (mouse_global_in_widget : Gpm_Event → Widget → Bool)
    (last_buttons_down : Nat) (event : Gpm_Event) (w : Widget) : Classified :=
  let in_widget : Bool :=
    if w.Mouse.forced_capture then true else mouse_global_in_widget event w
  if event.type &&& GPM_DOWN ≠ 0 then
    if in_widget then
      if event.buttons &&& GPM_B_UP ≠ 0 then
        { w := w, event := event, last_buttons_down := last_buttons_down,
          msg := some MSG_MOUSE_SCROLL_UP, run_click := false }
      else if event.buttons &&& GPM_B_DOWN ≠ 0 then
        { w := w, event := event, last_buttons_down := last_buttons_down,
          msg := some MSG_MOUSE_SCROLL_DOWN, run_click := false }
      else
        { w := { w with Mouse := { w.Mouse with capture := true } }, event := event,
          last_buttons_down := event.buttons,
          msg := some MSG_MOUSE_DOWN, run_click := false }
    else
      { w := w, event := event, last_buttons_down := last_buttons_down,
        msg := none, run_click := false }
  else if event.type &&& GPM_UP ≠ 0 then
    if w.Mouse.capture then
      { w := { w with Mouse := { w.Mouse with capture := false } },
        event := if event.buttons = 0 then { event with buttons := last_buttons_down }
                 else event,
        last_buttons_down := last_buttons_down,
        msg := some MSG_MOUSE_UP, run_click := in_widget }
    else
      { w := w, event := event, last_buttons_down := last_buttons_down,
        msg := none, run_click := false }
  else if event.type &&& GPM_DRAG ≠ 0 then
    if w.Mouse.capture then
      { w := w, event := event, last_buttons_down := last_buttons_down,
        msg := some MSG_MOUSE_DRAG, run_click := false }
    else
      { w := w, event := event, last_buttons_down := last_buttons_down,
        msg := none, run_click := false }
  else if event.type &&& GPM_MOVE ≠ 0 then
    if in_widget then
      { w := w, event := event, last_buttons_down := last_buttons_down,
        msg := some MSG_MOUSE_MOVE, run_click := false }
    else
      { w := w, event := event, last_buttons_down := last_buttons_down,
        msg := none, run_click := false }
  else
    { w := w, event := event, last_buttons_down := last_buttons_down,
      msg := none, run_click := false }

/-- One invocation of the callback: the widget, the message and the event record as they are
passed in. -/
structure Delivery where
  w : Widget
  msg : mouse_msg_t
  event : mouse_event_t
  deriving DecidableEq, Repr

/-- What a call of `easy_mouse_translator` leaves behind: the returned value, the widget, the
file-scope `last_buttons_down`, the raw event (the function writes to it), and the callback
invocations in the order they were made. -/
structure Outcome where
  ret : mou_t
  w : Widget
  last_buttons_down : Nat
  event : Gpm_Event
  calls : List Delivery
  deriving DecidableEq, Repr

/-- Lines 169-173: the value returned once the callback has run, from the `result` of the
local record. -/
def mou_of_result (r : mouse_result_t) : mou_t :=
  if !r.abort then (if r.«repeat» then MOU_REPEAT else MOU_NORMAL) else MOU_UNHANDLED

/-- The low-level mouse handler in use when an easy callback is installed. `callback` is
`w->Mouse.callback`; `last_buttons_down` is the value of the file-scope variable on entry. -/
def easy_mouse_translator (mouse_global_in_widget : Gpm_Event → Widget → Bool)
    (callback : easy_mouse_callback) (last_buttons_down : Nat) (event : Gpm_Event)
    (w : Widget) : Outcome :=
  let c := classify mouse_global_in_widget last_buttons_down event w
  match c.msg with
  | none =>
    { ret := MOU_UNHANDLED, w := c.w, last_buttons_down := c.last_buttons_down,
      event := c.event, calls := [] }
  | some msg =>
    let local0 := init_mouse_event msg c.event c.w
    let r1 := callback c.w msg local0
    if c.run_click then
      let r2 := callback r1.1 MSG_MOUSE_CLICK r1.2
      { ret := mou_of_result r2.2.result, w := r2.1,
        last_buttons_down := c.last_buttons_down, event := c.event,
        calls := [⟨c.w, msg, local0⟩, ⟨r1.1, MSG_MOUSE_CLICK, r1.2⟩] }
    else
      { ret := mou_of_result r1.2.result, w := r1.1,
        last_buttons_down := c.last_buttons_down, event := c.event,
        calls := [⟨c.w, msg, local0⟩] }

/-! ## What a callback may be assumed to leave alone

The spec has callbacks write to the result of the event they are given and to nothing else;
the C types do not enforce it, so the theorems that need it say so. -/

/-- A callback leaves the capture flag of the widget as it found it. -/
def keeps_capture (cb : easy_mouse_callback) : Prop :=
  ∀ w m e, (cb w m e).1.Mouse.capture = w.Mouse.capture

/-- A callback leaves the button mask of the event record as it found it. -/
def keeps_buttons (cb : easy_mouse_callback) : Prop :=
  ∀ w m e, (cb w m e).2.buttons = e.buttons

/-! ## Concrete data for the scenarios -/

/-- Modelled from the spec: `mouse_global_in_widget` is defined outside the sources. The spec
says an event is in the widget when "its coordinates fall within the widget's rectangle", the
raw coordinates being 1-based: the local coordinates `x - w.x - 1`, `y - w.y - 1` lie in
`[0, cols)` and `[0, lines)`. -/
def mouse_global_in_widget (event : Gpm_Event) (w : Widget) : Bool :=
  decide (w.x < event.x ∧ w.y < event.y ∧ event.x ≤ w.x + w.cols ∧ event.y ≤ w.y + w.lines)

/-- A callback that writes to nothing. -/
def cb_idle : easy_mouse_callback := fun w _ e => (w, e)

/-- The widget of the spec's scenario: origin (10,5), 20 columns by 10 lines, not capturing. -/
def w_scn : Widget :=
  { x := 10, y := 5, cols := 20, lines := 10,
    Mouse := { capture := false, forced_capture := false } }

/-- The scenario's press: left button at (15,10). -/
def ev_press : Gpm_Event := { buttons := GPM_B_LEFT, x := 15, y := 10, type := GPM_DOWN }

/-- A widget that asked for forced capture and holds the capture: origin (10,5), 20 by 10. -/
def w_forced : Widget :=
  { x := 10, y := 5, cols := 20, lines := 10,
    Mouse := { capture := true, forced_capture := true } }

/-- A release of the left button far outside the rectangle of `w_forced`. -/
def ev_release_far : Gpm_Event := { buttons := GPM_B_LEFT, x := 100, y := 100, type := GPM_UP }

/-- The scenario's release as a terminal reports it: no button in the mask, at (15,10). -/
def ev_release0 : Gpm_Event := { buttons := 0, x := 15, y := 10, type := GPM_UP }

/-- The scenario's widget while it holds the capture. -/
def w_scn_captured : Widget :=
  { x := 10, y := 5, cols := 20, lines := 10,
    Mouse := { capture := true, forced_capture := false } }

/-- A callback that declines every Up and accepts everything else: it writes
`event->result.abort = (msg == MSG_MOUSE_UP)` and nothing else. -/
def cb_abort_on_up : easy_mouse_callback := fun w m e =>
  (w, { e with result := { e.result with abort := decide (m = MSG_MOUSE_UP) } })

/-- A callback that declines every message: it writes `event->result.abort = TRUE`. -/
def cb_decline : easy_mouse_callback := fun w _ e =>
  (w, { e with result := { e.result with abort := true } })

/-- A press of the wheel-up button far outside the scenario's rectangle. -/
def ev_wheel_up_far : Gpm_Event := { buttons := GPM_B_UP, x := 100, y := 100, type := GPM_DOWN }

/-- A press of the wheel-up button at (15,10), inside the scenario's rectangle. -/
def ev_wheel_up : Gpm_Event := { buttons := GPM_B_UP, x := 15, y := 10, type := GPM_DOWN }

/-- A press at (15,10) whose mask has both wheel bits. -/
def ev_wheel_both : Gpm_Event :=
  { buttons := GPM_B_UP ||| GPM_B_DOWN, x := 15, y := 10, type := GPM_DOWN }

/-- A drag with the left button held, far outside the scenario's rectangle. -/
def ev_drag_far : Gpm_Event := { buttons := GPM_B_LEFT, x := 100, y := 100, type := GPM_DRAG }

/-- A pointer motion with no button, at (15,10). -/
def ev_move : Gpm_Event := { buttons := 0, x := 15, y := 10, type := GPM_MOVE }

/-- The delivery the scenario's press gives rise to: the widget with the capture flag set, the
message Down, and the record built for it. -/
def dl_scn_down : Delivery :=
  { w := { w_scn with Mouse := { capture := true, forced_capture := false } },
    msg := MSG_MOUSE_DOWN,
    event := init_mouse_event MSG_MOUSE_DOWN ev_press w_scn }

/-! ## Sequences of events on one widget -/

/-- The raw events of a list handed one after the other to `easy_mouse_translator` for the
same widget, the widget and `last_buttons_down` carried from each call to the next: every
event with what its call left behind. -/
def run_events (inb : Gpm_Event → Widget → Bool) (cb : easy_mouse_callback) (lbd : Nat)
    (w : Widget) : List Gpm_Event → List (Gpm_Event × Outcome)
  | [] => []
  | e :: es =>
    (e, easy_mouse_translator inb cb lbd e w) ::
      run_events inb cb (easy_mouse_translator inb cb lbd e w).last_buttons_down
        (easy_mouse_translator inb cb lbd e w).w es

/-- The widget and `last_buttons_down` once the events of the list have been processed. -/
def state_after (inb : Gpm_Event → Widget → Bool) (cb : easy_mouse_callback) (lbd : Nat)
    (w : Widget) : List Gpm_Event → Widget × Nat
  | [] => (w, lbd)
  | e :: es =>
    state_after inb cb (easy_mouse_translator inb cb lbd e w).last_buttons_down
      (easy_mouse_translator inb cb lbd e w).w es

/-- A call dispatched `MSG_MOUSE_DOWN`: its event was a capture-acquiring press. -/
def dispatched_down (o : Outcome) : Bool :=
  o.calls.any (fun d => decide (d.msg = MSG_MOUSE_DOWN))

/-! ## Forced capture -/

/-- The widget with its forced_capture flag written and nothing else changed. -/
def set_forced (f : Bool) (w : Widget) : Widget :=
  { w with Mouse := { w.Mouse with forced_capture := f } }

/-- A callback neither reads nor writes the forced_capture flag of the widget: run on the
widget with the flag written, it does what it does on the widget as it was, the flag apart. -/
def ignores_forced (cb : easy_mouse_callback) : Prop :=
  ∀ f w m e, cb (set_forced f w) m e = (set_forced f (cb w m e).1, (cb w m e).2)

/-! ## Event-type precedence -/

/-- The bits of `m` cleared in `t` (C's `t & ~m`). -/
def clear_bits (t m : Nat) : Nat := t ^^^ (t &&& m)

/-- The type bitmask with every press/release/drag/move bit of lower precedence than the
highest one present cleared (precedence: press, release, drag, move); the other bits stay. -/
def highest_type_only (t : Nat) : Nat :=
  if t &&& GPM_DOWN ≠ 0 then clear_bits t (GPM_UP ||| GPM_DRAG ||| GPM_MOVE)
  else if t &&& GPM_UP ≠ 0 then clear_bits t (GPM_DRAG ||| GPM_MOVE)
  else if t &&& GPM_DRAG ≠ 0 then clear_bits t GPM_MOVE
  else t

/-- An event with the press and the release bit, left button, at (15,10). -/
def ev_press_release : Gpm_Event :=
  { buttons := GPM_B_LEFT, x := 15, y := 10, type := GPM_DOWN ||| GPM_UP }

/-- An event with the press and the drag bit, left button, far outside the scenario's
rectangle. -/
def ev_press_drag_far : Gpm_Event :=
  { buttons := GPM_B_LEFT, x := 100, y := 100, type := GPM_DOWN ||| GPM_DRAG }

/-! ## `set_easy_mouse_callback` (mouse.c, lines 187-192) -/

/-- A low-level mouse handler (the type of the slot `w->mouse`) as the embedding runs one: given
the bounds test, the callback stored in the widget, `last_buttons_down`, the raw event and the
widget's data members, it leaves an `Outcome`. -/
abbrev mouse_h :=
  (Gpm_Event → Widget → Bool) → easy_mouse_callback → Nat → Gpm_Event → Widget → Outcome

/-- The state the mouse API works on for one widget: the file-scope `last_buttons_down`, the
widget's data members, and its two slots, the low-level handler `w->mouse` and the easy
callback `w->Mouse.callback`; a slot holding NULL is `none`. -/
structure BoundWidget where
  last_buttons_down : Nat
  w : Widget
  mouse : Option mouse_h
  callback : Option easy_mouse_callback

/-- Installs an easy mouse callback: the two assignments of the C function. `cb` may be NULL. -/
def set_easy_mouse_callback (s : BoundWidget) (cb : Option easy_mouse_callback) : BoundWidget :=
  { s with mouse := some easy_mouse_translator, callback := cb }

/-- A raw event routed to the widget: the handler in the slot `w->mouse` is run; nothing runs
when a slot is NULL. -/
def route_event (inb : Gpm_Event → Widget → Bool) (s : BoundWidget) (e : Gpm_Event) :
    Option Outcome :=
  match s.mouse, s.callback with
  | some h, some cb => some (h inb cb s.last_buttons_down e s.w)
  | _, _ => none

/-- A callback writes to the result of the record and to nothing else in it. -/
def writes_result_only (cb : easy_mouse_callback) : Prop :=
  ∀ w m e, (cb w m e).2.msg = e.msg ∧ (cb w m e).2.x = e.x ∧ (cb w m e).2.y = e.y
    ∧ (cb w m e).2.count = e.count ∧ (cb w m e).2.buttons = e.buttons

/-- A callback that asks for a repeat on Up and leaves the record alone otherwise: it writes
`event->result.repeat = TRUE` when `msg == MSG_MOUSE_UP`. -/
def cb_repeat_on_up : easy_mouse_callback := fun w m e =>
  (w, if m = MSG_MOUSE_UP then { e with result := { e.result with «repeat» := true } } else e)

/-! ## The stream of dispatched messages -/

/-- The messages dispatched along a trace, in the order of the callback invocations. -/
def message_stream : List (Gpm_Event × Outcome) → List mouse_msg_t
  | [] => []
  | p :: t => p.2.calls.map Delivery.msg ++ message_stream t

/-- Reading a message stream from a state `a`: `true` when the last Down or Up of the stream is
a Down, `a` when the stream has neither. -/
def armed (a : Bool) : List mouse_msg_t → Bool
  | [] => a
  | m :: t =>
    armed (if m = MSG_MOUSE_DOWN then true else if m = MSG_MOUSE_UP then false else a) t

/-- Checking a message stream from a state `a`: every Up and every Drag comes while `armed`. -/
def lifecycle_ok (a : Bool) : List mouse_msg_t → Bool
  | [] => true
  | m :: t =>
    (if m = MSG_MOUSE_UP ∨ m = MSG_MOUSE_DRAG then a else true)
      && lifecycle_ok
          (if m = MSG_MOUSE_DOWN then true else if m = MSG_MOUSE_UP then false else a) t

/-! ## Two widgets sharing `last_buttons_down` -/

/-- Which of the two bound widgets a raw event is routed to. -/
inductive Target where
  | A
  | B
  deriving DecidableEq, Repr

/-- The two widgets `A` and `B` and the one file-scope `last_buttons_down` both use. -/
structure Pair where
  wA : Widget
  wB : Widget
  last_buttons_down : Nat
  deriving DecidableEq, Repr

/-- A raw event routed to one of the two widgets: `easy_mouse_translator` runs for that widget
with its callback, on the shared `last_buttons_down`. -/
def route_pair (inb : Gpm_Event → Widget → Bool) (cbA cbB : easy_mouse_callback) (s : Pair)
    (t : Target) (e : Gpm_Event) : Outcome :=
  match t with
  | Target.A => easy_mouse_translator inb cbA s.last_buttons_down e s.wA
  | Target.B => easy_mouse_translator inb cbB s.last_buttons_down e s.wB

/-- The two widgets and the shared variable once the call for widget `t` has returned. -/
def pair_after_call (s : Pair) (t : Target) (o : Outcome) : Pair :=
  match t with
  | Target.A => { s with wA := o.w, last_buttons_down := o.last_buttons_down }
  | Target.B => { s with wB := o.w, last_buttons_down := o.last_buttons_down }

/-- An interleaved sequence of raw events, each routed to `A` or to `B`: every event with its
target and what its call left behind. -/
def run_pair (inb : Gpm_Event → Widget → Bool) (cbA cbB : easy_mouse_callback) (s : Pair) :
    List (Target × Gpm_Event) → List (Target × Gpm_Event × Outcome)
  | [] => []
  | p :: es =>
    (p.1, p.2, route_pair inb cbA cbB s p.1 p.2) ::
      run_pair inb cbA cbB (pair_after_call s p.1 (route_pair inb cbA cbB s p.1 p.2)) es

/-- The two widgets and the shared variable once the interleaved sequence has been processed. -/
def pair_after (inb : Gpm_Event → Widget → Bool) (cbA cbB : easy_mouse_callback) (s : Pair) :
    List (Target × Gpm_Event) → Pair
  | [] => s
  | p :: es =>
    pair_after inb cbA cbB (pair_after_call s p.1 (route_pair inb cbA cbB s p.1 p.2)) es

/-- The button mask of the most recent raw event of an interleaved trace that dispatched a
Down, whichever widget processed it; `acc` when there is none. -/
def last_press_mask_any (acc : Option Nat) :
    List (Target × Gpm_Event × Outcome) → Option Nat
  | [] => acc
  | p :: t =>
    last_press_mask_any (if dispatched_down p.2.2 then some p.2.1.buttons else acc) t

/-- The button mask of the most recent raw event processed by widget `tg` that dispatched a
Down; `acc` when there is none. -/
def last_press_mask_of (tg : Target) (acc : Option Nat) :
    List (Target × Gpm_Event × Outcome) → Option Nat
  | [] => acc
  | p :: t =>
    last_press_mask_of tg
      (if p.1 = tg ∧ dispatched_down p.2.2 = true then some p.2.1.buttons else acc) t

/-- The widget that processed the most recent raw event of an interleaved trace that
dispatched a Down; `acc` when there is none. -/
def last_press_target (acc : Option Target) :
    List (Target × Gpm_Event × Outcome) → Option Target
  | [] => acc
  | p :: t => last_press_target (if dispatched_down p.2.2 then some p.1 else acc) t

/-- A second widget, to the right of the scenario's: origin (40,5), 20 columns by 10 lines. -/
def w_other : Widget :=
  { x := 40, y := 5, cols := 20, lines := 10,
    Mouse := { capture := false, forced_capture := false } }

/-- A press of the right button at (45,10), inside `w_other`. -/
def ev_press_right_other : Gpm_Event :=
  { buttons := GPM_B_RIGHT, x := 45, y := 10, type := GPM_DOWN }

/-- A press of the middle button at (45,10), inside `w_other`. -/
def ev_press_middle_other : Gpm_Event :=
  { buttons := GPM_B_MIDDLE, x := 45, y := 10, type := GPM_DOWN }

/-- Press left in the scenario's widget `A`, then press middle in the other widget `B`. -/
def es_interleaved_middle : List (Target × Gpm_Event) :=
  [(Target.A, ev_press), (Target.B, ev_press_middle_other)]

/-- Press left in the scenario's widget `A`, then press right in the other widget `B`. -/
def es_interleaved : List (Target × Gpm_Event) :=
  [(Target.A, ev_press), (Target.B, ev_press_right_other)]

/-- The Up delivery of the scenario's release with the remembered mask 4: widget without
capture, record at local (4,4) carrying the left button. -/
def dl_scn_up : Delivery :=
  { w := w_scn, msg := MSG_MOUSE_UP,
    event := init_mouse_event MSG_MOUSE_UP { ev_release0 with buttons := 4 } w_scn }

/-- The Click delivery after `dl_scn_up` and the callback `cb_repeat_on_up`: the same record,
the repeat flag set. -/
def dl_scn_click : Delivery :=
  { w := w_scn, msg := MSG_MOUSE_CLICK,
    event := { dl_scn_up.event with result := { abort := false, «repeat» := true } } }

/-! ## Lemmas on the embedding -/

/-- A value in the range of `int` is not changed by the reduction. -/
theorem int_wrap_of_in_int (z : Int) (h : in_int z) : int_wrap z = z := by
  unfold in_int INT_MIN INT_MAX at h
  unfold int_wrap INT_MIN
  rw [Int.emod_eq_of_lt (by omega) (by omega)]
  omega

/-- The two subtractions of a local coordinate give the mathematical value when neither leaves
the range of `int`. -/
theorem int_sub_sub_of_in_int (a b : Int) (h1 : in_int (a - b)) (h2 : in_int (a - b - 1)) :
    int_sub (int_sub a b) 1 = a - b - 1 := by
  unfold int_sub
  rw [int_wrap_of_in_int _ h1, int_wrap_of_in_int _ h2]

/-- The idle callback does not write the capture flag. -/
theorem cb_idle_keeps_capture : keeps_capture cb_idle := fun _ _ _ => rfl

/-- The idle callback does not write the button mask of the record. -/
theorem cb_idle_keeps_buttons : keeps_buttons cb_idle := fun _ _ _ => rfl

/-- The shapes the classification can take: no message; a message that leaves the state alone
(scroll, drag, move); a Down, which sets capture and records the mask; an Up, which needs
capture and clears it. -/
theorem classify_cases (inb : Gpm_Event → Widget → Bool) (lbd : Nat) (e : Gpm_Event)
    (w : Widget) :
    classify inb lbd e w =
        { w := w, event := e, last_buttons_down := lbd, msg := none, run_click := false }
    ∨ (∃ m, m ≠ MSG_MOUSE_DOWN ∧ m ≠ MSG_MOUSE_UP ∧ m ≠ MSG_MOUSE_CLICK ∧
        classify inb lbd e w =
          { w := w, event := e, last_buttons_down := lbd, msg := some m, run_click := false })
    ∨ classify inb lbd e w =
        { w := { w with Mouse := { w.Mouse with capture := true } }, event := e,
          last_buttons_down := e.buttons, msg := some MSG_MOUSE_DOWN, run_click := false }
    ∨ (w.Mouse.capture = true ∧ ∃ rc,
        classify inb lbd e w =
          { w := { w with Mouse := { w.Mouse with capture := false } },
            event := if e.buttons = 0 then { e with buttons := lbd } else e,
            last_buttons_down := lbd, msg := some MSG_MOUSE_UP, run_click := rc }) := by
  simp only [classify]
  split_ifs <;>
    first
    | exact Or.inl rfl
    | exact Or.inr (Or.inl ⟨_, by decide, by decide, by decide, rfl⟩)
    | exact Or.inr (Or.inr (Or.inl rfl))
    | exact Or.inr (Or.inr (Or.inr ⟨by assumption, _, rfl⟩))

/-- No message classified: the callback is not invoked. -/
theorem translator_of_none (inb : Gpm_Event → Widget → Bool) (cb : easy_mouse_callback)
    (lbd : Nat) (e : Gpm_Event) (w : Widget) (hm : (classify inb lbd e w).msg = none) :
    easy_mouse_translator inb cb lbd e w =
      { ret := MOU_UNHANDLED, w := (classify inb lbd e w).w,
        last_buttons_down := (classify inb lbd e w).last_buttons_down,
        event := (classify inb lbd e w).event, calls := [] } := by
  simp only [easy_mouse_translator, hm]

/-- A message classified and no Click to run: one invocation. -/
theorem translator_of_single (inb : Gpm_Event → Widget → Bool) (cb : easy_mouse_callback)
    (lbd : Nat) (e : Gpm_Event) (w : Widget) (m : mouse_msg_t)
    (hm : (classify inb lbd e w).msg = some m)
    (hr : (classify inb lbd e w).run_click = false) :
    easy_mouse_translator inb cb lbd e w =
      { ret := mou_of_result (cb (classify inb lbd e w).w m
          (init_mouse_event m (classify inb lbd e w).event (classify inb lbd e w).w)).2.result,
        w := (cb (classify inb lbd e w).w m
          (init_mouse_event m (classify inb lbd e w).event (classify inb lbd e w).w)).1,
        last_buttons_down := (classify inb lbd e w).last_buttons_down,
        event := (classify inb lbd e w).event,
        calls := [⟨(classify inb lbd e w).w, m,
          init_mouse_event m (classify inb lbd e w).event (classify inb lbd e w).w⟩] } := by
  simp [easy_mouse_translator, hm, hr]

/-- A message classified and a Click to run: two invocations on the same record. -/
theorem translator_of_click (inb : Gpm_Event → Widget → Bool) (cb : easy_mouse_callback)
    (lbd : Nat) (e : Gpm_Event) (w : Widget) (m : mouse_msg_t)
    (hm : (classify inb lbd e w).msg = some m)
    (hr : (classify inb lbd e w).run_click = true) :
    easy_mouse_translator inb cb lbd e w =
      { ret := mou_of_result (cb (cb (classify inb lbd e w).w m
          (init_mouse_event m (classify inb lbd e w).event (classify inb lbd e w).w)).1
          MSG_MOUSE_CLICK (cb (classify inb lbd e w).w m
          (init_mouse_event m (classify inb lbd e w).event
            (classify inb lbd e w).w)).2).2.result,
        w := (cb (cb (classify inb lbd e w).w m
          (init_mouse_event m (classify inb lbd e w).event (classify inb lbd e w).w)).1
          MSG_MOUSE_CLICK (cb (classify inb lbd e w).w m
          (init_mouse_event m (classify inb lbd e w).event (classify inb lbd e w).w)).2).1,
        last_buttons_down := (classify inb lbd e w).last_buttons_down,
        event := (classify inb lbd e w).event,
        calls := [⟨(classify inb lbd e w).w, m,
            init_mouse_event m (classify inb lbd e w).event (classify inb lbd e w).w⟩,
          ⟨(cb (classify inb lbd e w).w m
            (init_mouse_event m (classify inb lbd e w).event (classify inb lbd e w).w)).1,
            MSG_MOUSE_CLICK, (cb (classify inb lbd e w).w m
            (init_mouse_event m (classify inb lbd e w).event (classify inb lbd e w).w)).2⟩] } := by
  simp [easy_mouse_translator, hm, hr]

/-- The value computed from a result record, by cases. -/
theorem mou_of_result_eq (r : mouse_result_t) :
    mou_of_result r =
      if r.abort = true then MOU_UNHANDLED
      else if r.«repeat» = true then MOU_REPEAT else MOU_NORMAL := by
  cases h : r.abort <;> simp [mou_of_result, h]

/-- One call keeps the link between the capture flag and the remembered mask: if the capture
flag is set on return, `last_buttons_down` is the mask of the latest press that dispatched a
Down. -/
theorem step_press_mask (inb : Gpm_Event → Widget → Bool) (cb : easy_mouse_callback)
    (hcb : keeps_capture cb) (lbd : Nat) (e : Gpm_Event) (w : Widget) (acc : Option Nat)
    (hinv : w.Mouse.capture = true → acc = some lbd)
    (hcap : (easy_mouse_translator inb cb lbd e w).w.Mouse.capture = true) :
    (if dispatched_down (easy_mouse_translator inb cb lbd e w) then some e.buttons else acc)
      = some (easy_mouse_translator inb cb lbd e w).last_buttons_down := by
  revert hcap
  rcases classify_cases inb lbd e w with h | ⟨m, h1, h2, h3, h⟩ | h | ⟨hc, rc, h⟩
  · simp only [easy_mouse_translator, h, dispatched_down]
    simpa using hinv
  · simp only [easy_mouse_translator, h, dispatched_down]
    simpa [hcb _ _ _, h1] using hinv
  · simp only [easy_mouse_translator, h, dispatched_down]
    simp
  · simp only [easy_mouse_translator, h, dispatched_down]
    cases rc <;> simp [hcb _ _ _]

/-- The state after a sequence is the one its last call left behind (the initial one when the
sequence is empty). -/
theorem state_after_eq_last (inb : Gpm_Event → Widget → Bool) (cb : easy_mouse_callback)
    (es : List Gpm_Event) :
    ∀ (lbd : Nat) (w : Widget),
      state_after inb cb lbd w es =
        match (run_events inb cb lbd w es).getLast? with
        | none => (w, lbd)
        | some p => (p.2.w, p.2.last_buttons_down) := by
  induction es with
  | nil => intro lbd w; rfl
  | cons e es ih =>
    intro lbd w
    cases es with
    | nil => rfl
    | cons e2 es2 =>
      have hl : (run_events inb cb lbd w (e :: e2 :: es2)).getLast? =
          (run_events inb cb (easy_mouse_translator inb cb lbd e w).last_buttons_down
            (easy_mouse_translator inb cb lbd e w).w (e2 :: es2)).getLast? := by
        simp only [run_events, List.getLast?_cons_cons]
      rw [state_after, ih, hl]
      cases h : (run_events inb cb (easy_mouse_translator inb cb lbd e w).last_buttons_down
          (easy_mouse_translator inb cb lbd e w).w (e2 :: es2)).getLast? with
      | none =>
        rw [List.getLast?_eq_none_iff] at h
        simp [run_events] at h
      | some p => rfl

/-- The idle callback neither reads nor writes the forced_capture flag. -/
theorem cb_idle_ignores_forced : ignores_forced cb_idle := fun _ _ _ _ => rfl

/-- With forced_capture set the classification does not depend on the bounds test. -/
theorem classify_forced_any (inb inb2 : Gpm_Event → Widget → Bool) (lbd : Nat)
    (e : Gpm_Event) (w : Widget) (hf : w.Mouse.forced_capture = true) :
    classify inb lbd e w = classify inb2 lbd e w := by
  simp [classify, hf]

/-- With forced_capture set the classification is that of the widget without the flag under a
bounds test answering true, the flag of the widget apart. -/
theorem classify_forced (inb inbT : Gpm_Event → Widget → Bool) (lbd : Nat)
    (e : Gpm_Event) (w : Widget) (hf : w.Mouse.forced_capture = true)
    (hT : inbT e (set_forced false w) = true) :
    classify inb lbd e w =
      { w := set_forced true (classify inbT lbd e (set_forced false w)).w,
        event := (classify inbT lbd e (set_forced false w)).event,
        last_buttons_down := (classify inbT lbd e (set_forced false w)).last_buttons_down,
        msg := (classify inbT lbd e (set_forced false w)).msg,
        run_click := (classify inbT lbd e (set_forced false w)).run_click } := by
  have hw : set_forced true w = w := by
    cases w with
    | mk x y c l M =>
      cases M with
      | mk cap f =>
        simp only [set_forced] at *
        simp_all
  simp only [classify, hT, hf]
  simp only [set_forced] at hw ⊢
  split_ifs <;> simp_all

/-- The raw event on return is the one the classification part left. -/
theorem translator_event (inb : Gpm_Event → Widget → Bool) (cb : easy_mouse_callback)
    (lbd : Nat) (e : Gpm_Event) (w : Widget) :
    (easy_mouse_translator inb cb lbd e w).event = (classify inb lbd e w).event := by
  cases hm : (classify inb lbd e w).msg with
  | none => rw [translator_of_none inb cb lbd e w hm]
  | some m =>
    cases hr : (classify inb lbd e w).run_click
    · rw [translator_of_single inb cb lbd e w m hm hr]
    · rw [translator_of_click inb cb lbd e w m hm hr]

/-- The remembered mask on return is the one the classification part left. -/
theorem translator_last_buttons_down (inb : Gpm_Event → Widget → Bool)
    (cb : easy_mouse_callback) (lbd : Nat) (e : Gpm_Event) (w : Widget) :
    (easy_mouse_translator inb cb lbd e w).last_buttons_down
      = (classify inb lbd e w).last_buttons_down := by
  cases hm : (classify inb lbd e w).msg with
  | none => rw [translator_of_none inb cb lbd e w hm]
  | some m =>
    cases hr : (classify inb lbd e w).run_click
    · rw [translator_of_single inb cb lbd e w m hm hr]
    · rw [translator_of_click inb cb lbd e w m hm hr]

/-- The capture flag on return is the one the classification part left, for a callback that
does not write it. -/
theorem translator_capture (inb : Gpm_Event → Widget → Bool) (cb : easy_mouse_callback)
    (hcb : keeps_capture cb) (lbd : Nat) (e : Gpm_Event) (w : Widget) :
    (easy_mouse_translator inb cb lbd e w).w.Mouse.capture
      = (classify inb lbd e w).w.Mouse.capture := by
  cases hm : (classify inb lbd e w).msg with
  | none => rw [translator_of_none inb cb lbd e w hm]
  | some m =>
    cases hr : (classify inb lbd e w).run_click
    · rw [translator_of_single inb cb lbd e w m hm hr]
      simp only [hcb _ _ _]
    · rw [translator_of_click inb cb lbd e w m hm hr]
      simp only [hcb _ _ _]

/-- The one write to the raw event: the button mask of an empty-mask release processed while
the capture flag is set. -/
theorem classify_event (inb : Gpm_Event → Widget → Bool) (lbd : Nat) (e : Gpm_Event)
    (w : Widget) :
    (classify inb lbd e w).event =
      if e.type &&& GPM_DOWN = 0 ∧ e.type &&& GPM_UP ≠ 0 ∧ w.Mouse.capture = true
          ∧ e.buttons = 0
      then { e with buttons := lbd } else e := by
  simp only [classify]
  split_ifs <;> simp_all

/-- The capture flag after the classification part. -/
theorem classify_capture (inb : Gpm_Event → Widget → Bool) (lbd : Nat) (e : Gpm_Event)
    (w : Widget) :
    (classify inb lbd e w).w.Mouse.capture =
      if e.type &&& GPM_DOWN ≠ 0 ∧ e.buttons &&& GPM_B_UP = 0 ∧ e.buttons &&& GPM_B_DOWN = 0
          ∧ (inb e w = true ∨ w.Mouse.forced_capture = true)
      then true
      else if e.type &&& GPM_DOWN = 0 ∧ e.type &&& GPM_UP ≠ 0 ∧ w.Mouse.capture = true
      then false
      else w.Mouse.capture := by
  simp only [classify]
  split_ifs <;> simp_all

/-- Clearing bits leaves the bits outside the cleared mask as they were. -/
theorem clear_bits_and_of_disjoint (t m b : Nat) (h : b &&& m = 0) :
    clear_bits t m &&& b = t &&& b := by
  apply Nat.eq_of_testBit_eq
  intro i
  have hi := congrArg (fun n => Nat.testBit n i) h
  simp only [Nat.testBit_and, Nat.zero_testBit] at hi
  simp only [clear_bits, Nat.testBit_and, Nat.testBit_xor]
  cases ht : t.testBit i <;> cases hm : m.testBit i <;> cases hb : b.testBit i <;> simp_all

/-- Clearing bits leaves none of the bits of the cleared mask. -/
theorem clear_bits_and_of_subset (t m b : Nat) (h : b &&& m = b) :
    clear_bits t m &&& b = 0 := by
  apply Nat.eq_of_testBit_eq
  intro i
  have hi := congrArg (fun n => Nat.testBit n i) h
  simp only [Nat.testBit_and] at hi
  simp only [clear_bits, Nat.testBit_and, Nat.testBit_xor, Nat.zero_testBit]
  cases ht : t.testBit i <;> cases hm : m.testBit i <;> cases hb : b.testBit i <;> simp_all

/-- What `highest_type_only` keeps: the press bit; the release bit when there is no press bit;
the drag bit when there is neither; the move bit when there is none of the three; and the
click-multiplicity bits. -/
theorem highest_type_only_keeps (t : Nat) :
    highest_type_only t &&& GPM_DOWN = t &&& GPM_DOWN
    ∧ (t &&& GPM_DOWN = 0 → highest_type_only t &&& GPM_UP = t &&& GPM_UP)
    ∧ (t &&& GPM_DOWN = 0 → t &&& GPM_UP = 0 →
        highest_type_only t &&& GPM_DRAG = t &&& GPM_DRAG)
    ∧ (t &&& GPM_DOWN = 0 → t &&& GPM_UP = 0 → t &&& GPM_DRAG = 0 →
        highest_type_only t &&& GPM_MOVE = t &&& GPM_MOVE)
    ∧ highest_type_only t &&& (GPM_SINGLE ||| GPM_DOUBLE ||| GPM_TRIPLE)
        = t &&& (GPM_SINGLE ||| GPM_DOUBLE ||| GPM_TRIPLE) := by
  unfold highest_type_only
  refine ⟨?_, ?_, ?_, ?_, ?_⟩
  · split_ifs <;> first | rfl | exact clear_bits_and_of_disjoint _ _ _ (by decide)
  · intro h1
    rw [if_neg (by simpa using h1)]
    split_ifs <;> first | rfl | exact clear_bits_and_of_disjoint _ _ _ (by decide)
  · intro h1 h2
    rw [if_neg (by simpa using h1), if_neg (by simpa using h2)]
    split_ifs <;> first | rfl | exact clear_bits_and_of_disjoint _ _ _ (by decide)
  · intro h1 h2 h3
    rw [if_neg (by simpa using h1), if_neg (by simpa using h2), if_neg (by simpa using h3)]
  · split_ifs <;> first | rfl | exact clear_bits_and_of_disjoint _ _ _ (by decide)

/-- What `highest_type_only` clears: below a press bit the release, drag and move bits; below
a release bit the drag and move bits; below a drag bit the move bit. -/
theorem highest_type_only_clears (t : Nat) :
    (t &&& GPM_DOWN ≠ 0 →
        highest_type_only t &&& (GPM_UP ||| GPM_DRAG ||| GPM_MOVE) = 0)
    ∧ (t &&& GPM_DOWN = 0 → t &&& GPM_UP ≠ 0 →
        highest_type_only t &&& (GPM_DRAG ||| GPM_MOVE) = 0)
    ∧ (t &&& GPM_DOWN = 0 → t &&& GPM_UP = 0 → t &&& GPM_DRAG ≠ 0 →
        highest_type_only t &&& GPM_MOVE = 0) := by
  unfold highest_type_only
  refine ⟨?_, ?_, ?_⟩
  · intro h1
    rw [if_pos h1]
    exact clear_bits_and_of_subset _ _ _ (by decide)
  · intro h1 h2
    rw [if_neg (by simpa using h1), if_pos h2]
    exact clear_bits_and_of_subset _ _ _ (by decide)
  · intro h1 h2 h3
    rw [if_neg (by simpa using h1), if_neg (by simpa using h2), if_pos h3]
    exact clear_bits_and_of_subset _ _ _ (by decide)

/-- The classification reads the type bitmask through the press bit, then the release bit when
there is no press bit, then the drag bit, then the move bit: two bitmasks that agree on these
give the same classification, the type carried in the raw event apart. -/
theorem classify_congr_type (inb : Gpm_Event → Widget → Bool) (lbd : Nat) (e : Gpm_Event)
    (w : Widget) (t : Nat)
    (hb : inb { e with type := t } w = inb e w)
    (h1 : t &&& GPM_DOWN = e.type &&& GPM_DOWN)
    (h2 : e.type &&& GPM_DOWN = 0 → t &&& GPM_UP = e.type &&& GPM_UP)
    (h3 : e.type &&& GPM_DOWN = 0 → e.type &&& GPM_UP = 0 →
        t &&& GPM_DRAG = e.type &&& GPM_DRAG)
    (h4 : e.type &&& GPM_DOWN = 0 → e.type &&& GPM_UP = 0 → e.type &&& GPM_DRAG = 0 →
        t &&& GPM_MOVE = e.type &&& GPM_MOVE) :
    classify inb lbd { e with type := t } w =
      { w := (classify inb lbd e w).w,
        event := { (classify inb lbd e w).event with type := t },
        last_buttons_down := (classify inb lbd e w).last_buttons_down,
        msg := (classify inb lbd e w).msg,
        run_click := (classify inb lbd e w).run_click } := by
  by_cases hd : e.type &&& GPM_DOWN = 0
  · have h2a := h2 hd
    by_cases hu : e.type &&& GPM_UP = 0
    · have h3a := h3 hd hu
      by_cases hg : e.type &&& GPM_DRAG = 0
      · have h4a := h4 hd hu hg
        simp only [classify, h1, hd, h2a, hu, h3a, hg, h4a, hb]
        split_ifs <;> simp_all
      · simp only [classify, h1, hd, h2a, hu, h3a, hg, hb]
        split_ifs <;> simp_all
    · simp only [classify, h1, hd, h2a, hu, hb]
      split_ifs <;> simp_all
  · simp only [classify, h1, hd, hb]
    split_ifs <;> simp_all

/-- Two type bitmasks that agree on what the classification reads and on the click-multiplicity
bits give the same outcome, the type carried in the raw event apart. -/
theorem translator_congr_type (inb : Gpm_Event → Widget → Bool) (cb : easy_mouse_callback)
    (lbd : Nat) (e : Gpm_Event) (w : Widget) (t : Nat)
    (hb : inb { e with type := t } w = inb e w)
    (h1 : t &&& GPM_DOWN = e.type &&& GPM_DOWN)
    (h2 : e.type &&& GPM_DOWN = 0 → t &&& GPM_UP = e.type &&& GPM_UP)
    (h3 : e.type &&& GPM_DOWN = 0 → e.type &&& GPM_UP = 0 →
        t &&& GPM_DRAG = e.type &&& GPM_DRAG)
    (h4 : e.type &&& GPM_DOWN = 0 → e.type &&& GPM_UP = 0 → e.type &&& GPM_DRAG = 0 →
        t &&& GPM_MOVE = e.type &&& GPM_MOVE)
    (h5 : t &&& (GPM_SINGLE ||| GPM_DOUBLE ||| GPM_TRIPLE)
        = e.type &&& (GPM_SINGLE ||| GPM_DOUBLE ||| GPM_TRIPLE)) :
    easy_mouse_translator inb cb lbd { e with type := t } w =
      { ret := (easy_mouse_translator inb cb lbd e w).ret,
        w := (easy_mouse_translator inb cb lbd e w).w,
        last_buttons_down := (easy_mouse_translator inb cb lbd e w).last_buttons_down,
        event := { (easy_mouse_translator inb cb lbd e w).event with type := t },
        calls := (easy_mouse_translator inb cb lbd e w).calls } := by
  have hc := classify_congr_type inb lbd e w t hb h1 h2 h3 h4
  have hty : (classify inb lbd e w).event.type = e.type := by
    rw [classify_event]
    split_ifs <;> rfl
  have hi : ∀ m x, init_mouse_event m { (classify inb lbd e w).event with type := t } x
      = init_mouse_event m (classify inb lbd e w).event x := by
    intro m x
    simp only [init_mouse_event, h5, hty]
  cases hm : (classify inb lbd e w).msg with
  | none =>
    have hm1 : (classify inb lbd { e with type := t } w).msg = none := by rw [hc]; exact hm
    rw [translator_of_none inb cb lbd e w hm, translator_of_none inb cb lbd _ w hm1]
    simp only [hc]
  | some m =>
    have hm1 : (classify inb lbd { e with type := t } w).msg = some m := by rw [hc]; exact hm
    cases hr : (classify inb lbd e w).run_click
    · have hr1 : (classify inb lbd { e with type := t } w).run_click = false := by
        rw [hc]; exact hr
      rw [translator_of_single inb cb lbd e w m hm hr,
        translator_of_single inb cb lbd _ w m hm1 hr1]
      simp only [hc, hi]
    · have hr1 : (classify inb lbd { e with type := t } w).run_click = true := by
        rw [hc]; exact hr
      rw [translator_of_click inb cb lbd e w m hm hr,
        translator_of_click inb cb lbd _ w m hm1 hr1]
      simp only [hc, hi]

/-- Reading a stream in two parts. -/
theorem armed_append (l1 l2 : List mouse_msg_t) :
    ∀ a, armed a (l1 ++ l2) = armed (armed a l1) l2 := by
  induction l1 with
  | nil => intro a; rfl
  | cons m t ih =>
    intro a
    rw [List.cons_append]
    simp only [armed]
    exact ih _

/-- Checking a stream in two parts. -/
theorem lifecycle_ok_append (l1 l2 : List mouse_msg_t) :
    ∀ a, lifecycle_ok a (l1 ++ l2) = (lifecycle_ok a l1 && lifecycle_ok (armed a l1) l2) := by
  induction l1 with
  | nil => intro a; simp [lifecycle_ok, armed]
  | cons m t ih =>
    intro a
    rw [List.cons_append]
    simp only [lifecycle_ok, armed]
    rw [ih, Bool.and_assoc]

/-- A stream without Up read from `true` ends in `true`. -/
theorem armed_true_of_no_up (l : List mouse_msg_t) (h : MSG_MOUSE_UP ∉ l) :
    armed true l = true := by
  induction l with
  | nil => rfl
  | cons m t ih =>
    simp only [List.mem_cons, not_or] at h
    have hm : ¬ m = MSG_MOUSE_UP := fun h' => h.1 h'.symm
    simp only [armed, hm, if_false, ite_self]
    exact ih h.2

/-- What `armed` computes: the stream has a Down with no Up after it, or the start was `true`
and the stream has no Up. -/
theorem armed_iff (l : List mouse_msg_t) :
    ∀ a, armed a l = true ↔
      (a = true ∧ MSG_MOUSE_UP ∉ l) ∨
      ∃ l1 l2, l = l1 ++ MSG_MOUSE_DOWN :: l2 ∧ MSG_MOUSE_UP ∉ l2 := by
  induction l with
  | nil => intro a; simp [armed]
  | cons m t ih =>
    intro a
    constructor
    · intro h
      simp only [armed] at h
      rcases (ih _).1 h with ⟨h1, h2⟩ | ⟨l1, l2, h1, h2⟩
      · by_cases hd : m = MSG_MOUSE_DOWN
        · exact Or.inr ⟨[], t, by simp [hd], h2⟩
        · by_cases hu : m = MSG_MOUSE_UP
          · simp [hd, hu] at h1
          · simp only [hd, hu, if_false] at h1
            refine Or.inl ⟨h1, ?_⟩
            simp only [List.mem_cons, not_or]
            exact ⟨fun h' => hu h'.symm, h2⟩
      · exact Or.inr ⟨m :: l1, l2, by simp [h1], h2⟩
    · intro h
      rcases h with ⟨h1, h2⟩ | ⟨l1, l2, h1, h2⟩
      · subst h1
        exact armed_true_of_no_up _ h2
      · rw [h1, armed_append]
        simp only [armed, if_true]
        exact armed_true_of_no_up _ h2

/-- In a stream that passes the check, an Up or a Drag comes after a prefix read as `true`. -/
theorem armed_of_ok (a : Bool) (l pre post : List mouse_msg_t) (m : mouse_msg_t)
    (hok : lifecycle_ok a l = true) (hl : l = pre ++ m :: post)
    (hm : m = MSG_MOUSE_UP ∨ m = MSG_MOUSE_DRAG) : armed a pre = true := by
  rw [hl, lifecycle_ok_append] at hok
  simp only [Bool.and_eq_true] at hok
  have h2 := hok.2
  simp only [lifecycle_ok, hm, if_true, Bool.and_eq_true] at h2
  exact h2.1

/-- A Drag is classified only while the capture flag is set. -/
theorem classify_drag (inb : Gpm_Event → Widget → Bool) (lbd : Nat) (e : Gpm_Event)
    (w : Widget) (h : (classify inb lbd e w).msg = some MSG_MOUSE_DRAG) :
    w.Mouse.capture = true := by
  simp only [classify] at h
  split_ifs at h <;> simp_all

/-- The messages of one call: none, one that is not a Click, or Up then Click. -/
theorem call_messages (inb : Gpm_Event → Widget → Bool) (cb : easy_mouse_callback)
    (lbd : Nat) (e : Gpm_Event) (w : Widget) :
    (easy_mouse_translator inb cb lbd e w).calls.map Delivery.msg = []
    ∨ (easy_mouse_translator inb cb lbd e w).calls.map Delivery.msg
        = [MSG_MOUSE_UP, MSG_MOUSE_CLICK]
    ∨ ∃ m, m ≠ MSG_MOUSE_CLICK ∧
        (easy_mouse_translator inb cb lbd e w).calls.map Delivery.msg = [m] := by
  rcases classify_cases inb lbd e w with h | ⟨m, _, _, h3, h⟩ | h | ⟨_, rc, h⟩
  · simp [easy_mouse_translator, h]
  · exact Or.inr (Or.inr ⟨m, h3, by simp [easy_mouse_translator, h]⟩)
  · exact Or.inr (Or.inr ⟨MSG_MOUSE_DOWN, by decide, by simp [easy_mouse_translator, h]⟩)
  · cases rc
    · exact Or.inr (Or.inr ⟨MSG_MOUSE_UP, by decide, by simp [easy_mouse_translator, h]⟩)
    · exact Or.inr (Or.inl (by simp [easy_mouse_translator, h]))

/-- One call, read as a piece of stream from the capture flag on entry: it passes the check
and ends in the capture flag on return (the callback not writing it). -/
theorem step_lifecycle (inb : Gpm_Event → Widget → Bool) (cb : easy_mouse_callback)
    (hcb : keeps_capture cb) (lbd : Nat) (e : Gpm_Event) (w : Widget) :
    lifecycle_ok w.Mouse.capture
        ((easy_mouse_translator inb cb lbd e w).calls.map Delivery.msg) = true
    ∧ armed w.Mouse.capture ((easy_mouse_translator inb cb lbd e w).calls.map Delivery.msg)
        = (easy_mouse_translator inb cb lbd e w).w.Mouse.capture := by
  rcases classify_cases inb lbd e w with h | ⟨m, h1, h2, h3, h⟩ | h | ⟨hc, rc, h⟩
  · simp [easy_mouse_translator, h, lifecycle_ok, armed]
  · have hd : m = MSG_MOUSE_DRAG → w.Mouse.capture = true := by
      intro hm
      apply classify_drag inb lbd e w
      rw [h, hm]
    simp only [easy_mouse_translator, h, Bool.false_eq_true, if_false, List.map_cons,
      List.map_nil, lifecycle_ok, armed, h1, h2, false_or, hcb _ _ _, Bool.and_true]
    refine ⟨?_, trivial⟩
    split_ifs with hm
    · exact hd hm
    · rfl
  · simp [easy_mouse_translator, h, lifecycle_ok, armed, hcb _ _ _]
  · cases rc <;> simp [easy_mouse_translator, h, lifecycle_ok, armed, hcb _ _ _, hc]

/-- A whole trace, read from the capture flag at the start: the stream passes the check and
ends in the capture flag at the end. -/
theorem trace_lifecycle (inb : Gpm_Event → Widget → Bool) (cb : easy_mouse_callback)
    (hcb : keeps_capture cb) (es : List Gpm_Event) :
    ∀ (lbd : Nat) (w : Widget),
      lifecycle_ok w.Mouse.capture (message_stream (run_events inb cb lbd w es)) = true
      ∧ armed w.Mouse.capture (message_stream (run_events inb cb lbd w es))
          = (state_after inb cb lbd w es).1.Mouse.capture := by
  induction es with
  | nil => intro lbd w; exact ⟨rfl, rfl⟩
  | cons e es ih =>
    intro lbd w
    obtain ⟨s1, s2⟩ := step_lifecycle inb cb hcb lbd e w
    obtain ⟨i1, i2⟩ := ih (easy_mouse_translator inb cb lbd e w).last_buttons_down
      (easy_mouse_translator inb cb lbd e w).w
    simp only [run_events, message_stream, state_after]
    rw [lifecycle_ok_append, armed_append, s1, s2, i1, i2]
    exact ⟨rfl, rfl⟩

/-- Every entry of a trace is a call of `easy_mouse_translator`. -/
theorem mem_run_events (inb : Gpm_Event → Widget → Bool) (cb : easy_mouse_callback)
    (es : List Gpm_Event) :
    ∀ (lbd : Nat) (w : Widget) (p : Gpm_Event × Outcome), p ∈ run_events inb cb lbd w es →
      ∃ l x, p.2 = easy_mouse_translator inb cb l p.1 x := by
  induction es with
  | nil => intro lbd w p hp; simp [run_events] at hp
  | cons e es ih =>
    intro lbd w p hp
    simp only [run_events, List.mem_cons] at hp
    rcases hp with hp | hp
    · exact ⟨lbd, w, by rw [hp]⟩
    · exact ih _ _ p hp

/-- The callback `cb_repeat_on_up` writes to the result only. -/
theorem cb_repeat_on_up_writes_result_only : writes_result_only cb_repeat_on_up := by
  intro w m e
  simp only [cb_repeat_on_up]
  split_ifs <;> simp

/-- One call and the remembered mask: a call that dispatches a Down leaves the mask of its
event in `last_buttons_down`; any other call leaves `last_buttons_down` as it was. -/
theorem step_mask_any (inb : Gpm_Event → Widget → Bool) (cb : easy_mouse_callback)
    (lbd : Nat) (e : Gpm_Event) (w : Widget) :
    (easy_mouse_translator inb cb lbd e w).last_buttons_down =
      if dispatched_down (easy_mouse_translator inb cb lbd e w) then e.buttons else lbd := by
  rcases classify_cases inb lbd e w with h | ⟨m, h1, _, _, h⟩ | h | ⟨_, rc, h⟩
  · simp [easy_mouse_translator, h, dispatched_down]
  · simp [easy_mouse_translator, h, dispatched_down, h1]
  · simp [easy_mouse_translator, h, dispatched_down]
  · cases rc <;> simp [easy_mouse_translator, h, dispatched_down]

/-- Along an interleaved sequence: if widget `A` holds the capture at the end, the shared
`last_buttons_down` is the mask of the latest press, by either widget, that dispatched a
Down. -/
theorem pair_press_mask (inb : Gpm_Event → Widget → Bool) (cbA cbB : easy_mouse_callback)
    (hcb : keeps_capture cbA) (es : List (Target × Gpm_Event)) :
    ∀ (s : Pair) (acc : Option Nat),
      (s.wA.Mouse.capture = true → acc = some s.last_buttons_down) →
      (pair_after inb cbA cbB s es).wA.Mouse.capture = true →
      last_press_mask_any acc (run_pair inb cbA cbB s es)
        = some (pair_after inb cbA cbB s es).last_buttons_down := by
  induction es with
  | nil =>
    intro s acc hinv hcap
    simpa [pair_after, run_pair, last_press_mask_any] using hinv hcap
  | cons p es ih =>
    intro s acc hinv hcap
    simp only [pair_after, run_pair, last_press_mask_any] at hcap ⊢
    apply ih _ _ _ hcap
    obtain ⟨t, e⟩ := p
    cases t with
    | A =>
      intro h
      exact step_press_mask inb cbA hcb s.last_buttons_down e s.wA acc hinv h
    | B =>
      intro h
      have hA : s.wA.Mouse.capture = true := h
      have hacc := hinv hA
      simp only [route_pair, pair_after_call]
      rw [step_mask_any inb cbB s.last_buttons_down e s.wB]
      split_ifs
      · rfl
      · exact hacc

/-- When the latest press that dispatched a Down was processed by widget `A`, its mask is the
mask of `A`'s own latest such press. -/
theorem last_press_mask_of_target (tr : List (Target × Gpm_Event × Outcome)) :
    ∀ (accG accA : Option Nat) (accT : Option Target),
      (accT = some Target.A → accG = accA) →
      last_press_target accT tr = some Target.A →
      last_press_mask_any accG tr = last_press_mask_of Target.A accA tr := by
  induction tr with
  | nil =>
    intro accG accA accT hinv ht
    exact hinv ht
  | cons p t ih =>
    intro accG accA accT hinv ht
    simp only [last_press_target, last_press_mask_any, last_press_mask_of] at ht ⊢
    apply ih _ _ _ _ ht
    cases hd : dispatched_down p.2.2
    · simpa [hd] using hinv
    · cases hp : p.1 <;> simp [hp]

/-- In a trace all of whose entries were processed by widget `A`, the latest press that
dispatched a Down is `A`'s. -/
theorem last_press_mask_of_all (tr : List (Target × Gpm_Event × Outcome))
    (hall : ∀ p ∈ tr, p.1 = Target.A) :
    ∀ acc, last_press_mask_any acc tr = last_press_mask_of Target.A acc tr := by
  induction tr with
  | nil => intro acc; rfl
  | cons p t ih =>
    intro acc
    have hp : p.1 = Target.A := hall p (List.mem_cons_self _ _)
    simp only [last_press_mask_any, last_press_mask_of, hp, true_and]
    exact ih (fun q hq => hall q (List.mem_cons_of_mem _ hq)) _

/-- The entries of an interleaved trace carry the targets of the events processed. -/
theorem run_pair_targets (inb : Gpm_Event → Widget → Bool) (cbA cbB : easy_mouse_callback)
    (es : List (Target × Gpm_Event)) (hall : ∀ p ∈ es, p.1 = Target.A) :
    ∀ (s : Pair), ∀ q ∈ run_pair inb cbA cbB s es, q.1 = Target.A := by
  induction es with
  | nil => intro s q hq; simp [run_pair] at hq
  | cons p es ih =>
    intro s q hq
    simp only [run_pair, List.mem_cons] at hq
    rcases hq with hq | hq
    · rw [hq]
      exact hall p (List.mem_cons_self _ _)
    · exact ih (fun r hr => hall r (List.mem_cons_of_mem _ hr)) _ q hq

/-! ## The claims -/

/-- C1: a press with a non-wheel button in the widget (in bounds, or forced_capture set) sets
capture, records the button mask in `last_buttons_down`, and invokes the callback exactly
once, with `MSG_MOUSE_DOWN` and the event built by `init_mouse_event`, whose coordinates are
the C `int` expressions `x - w.x - 1` and `y - w.y - 1`: the values `x - w.x - 1` and
`y - w.y - 1` themselves whenever the subtractions stay in the range of `int`. The capture
flag is already set in the widget the callback receives, and is set on return when the
callback does not write to it. -/
theorem C1_press_down (inb : Gpm_Event → Widget → Bool) (cb : easy_mouse_callback)
    (lbd : Nat) (e : Gpm_Event) (w : Widget)
    (hpress : e.type &&& GPM_DOWN ≠ 0)
    (hup : e.buttons &&& GPM_B_UP = 0) (hdown : e.buttons &&& GPM_B_DOWN = 0)
    (hin : inb e w = true ∨ w.Mouse.forced_capture = true) :
    (keeps_capture cb → (easy_mouse_translator inb cb lbd e w).w.Mouse.capture = true)
    ∧ (easy_mouse_translator inb cb lbd e w).last_buttons_down = e.buttons
    ∧ (∃ d, (easy_mouse_translator inb cb lbd e w).calls = [d]
        ∧ d.msg = MSG_MOUSE_DOWN
        ∧ d.w.Mouse.capture = true
        ∧ d.event = init_mouse_event MSG_MOUSE_DOWN e w
        ∧ d.event.msg = MSG_MOUSE_DOWN
        ∧ d.event.x = int_sub (int_sub e.x w.x) 1
        ∧ d.event.y = int_sub (int_sub e.y w.y) 1
        ∧ (in_int (e.x - w.x) → in_int (e.x - w.x - 1) → d.event.x = e.x - w.x - 1)
        ∧ (in_int (e.y - w.y) → in_int (e.y - w.y - 1) → d.event.y = e.y - w.y - 1)) := by
  have hc : classify inb lbd e w =
      { w := { w with Mouse := { w.Mouse with capture := true } }, event := e,
        last_buttons_down := e.buttons, msg := some MSG_MOUSE_DOWN, run_click := false } := by
    unfold classify
    rcases hin with h | h <;> simp [hpress, hup, hdown, h]
  simp only [easy_mouse_translator, hc]
  refine ⟨?_, rfl, ?_⟩
  · intro hcb
    simp [hcb _ _ _]
  · exact ⟨_, rfl, rfl, rfl, rfl, rfl, rfl, rfl,
      fun h1 h2 => int_sub_sub_of_in_int e.x w.x h1 h2,
      fun h1 h2 => int_sub_sub_of_in_int e.y w.y h1 h2⟩

/-- C1 witness: origin (10,5), press left at (15,10): Down at local (4,4), the subtractions
staying in range. -/
theorem C1_press_down_witness :
    keeps_capture cb_idle
    ∧ (easy_mouse_translator mouse_global_in_widget cb_idle 0 ev_press w_scn).w.Mouse.capture
        = true
    ∧ (easy_mouse_translator mouse_global_in_widget cb_idle 0 ev_press w_scn).last_buttons_down
        = GPM_B_LEFT
    ∧ in_int (ev_press.x - w_scn.x) ∧ in_int (ev_press.x - w_scn.x - 1)
    ∧ in_int (ev_press.y - w_scn.y) ∧ in_int (ev_press.y - w_scn.y - 1)
    ∧ (∃ d, (easy_mouse_translator mouse_global_in_widget cb_idle 0 ev_press w_scn).calls = [d]
        ∧ d.msg = MSG_MOUSE_DOWN
        ∧ d.w.Mouse.capture = true
        ∧ d.event = init_mouse_event MSG_MOUSE_DOWN ev_press w_scn
        ∧ d.event.msg = MSG_MOUSE_DOWN
        ∧ d.event.x = 4 ∧ d.event.y = 4) := by
  obtain ⟨hcap, hlbd, d, hd, h1, h2, h3, h4, _, _, hx, hy⟩ :=
    C1_press_down mouse_global_in_widget cb_idle 0 ev_press w_scn (by decide) (by decide)
      (by decide) (Or.inl (by decide))
  exact ⟨cb_idle_keeps_capture, hcap cb_idle_keeps_capture, hlbd, by decide, by decide,
    by decide, by decide, d, hd, h1, h2, h3, h4, hx (by decide) (by decide),
    hy (by decide) (by decide)⟩

/-- C2, as stated, fails: on a capturing widget with forced_capture set, a release whose
position is outside the widget's rectangle is followed by a Click all the same. -/
theorem C2_counterexample :
    w_forced.Mouse.capture = true
    ∧ ev_release_far.type &&& GPM_UP ≠ 0 ∧ ev_release_far.type &&& GPM_DOWN = 0
    ∧ mouse_global_in_widget ev_release_far w_forced = false
    ∧ ((easy_mouse_translator mouse_global_in_widget cb_idle 0 ev_release_far w_forced).calls.map
        Delivery.msg) = [MSG_MOUSE_UP, MSG_MOUSE_CLICK] := by
  decide

/-- C2, amended: on a widget with capture set, a release (release bit, no press bit) invokes
the callback with exactly one `MSG_MOUSE_UP`, followed by exactly one `MSG_MOUSE_CLICK` if and
only if the release is in the widget (position within bounds, or forced_capture set); the
capture flag is clear when the callback receives the Up, and is clear at the Click and on
return when the callback does not write to it. -/
theorem C2_release_up_click (inb : Gpm_Event → Widget → Bool) (cb : easy_mouse_callback)
    (lbd : Nat) (e : Gpm_Event) (w : Widget)
    (hcap : w.Mouse.capture = true)
    (hrel : e.type &&& GPM_UP ≠ 0) (hnopress : e.type &&& GPM_DOWN = 0) :
    (keeps_capture cb → (easy_mouse_translator inb cb lbd e w).w.Mouse.capture = false)
    ∧ (keeps_capture cb →
        ∀ d ∈ (easy_mouse_translator inb cb lbd e w).calls, d.w.Mouse.capture = false)
    ∧ ((easy_mouse_translator inb cb lbd e w).calls.head?.map
        (fun d => d.w.Mouse.capture) = some false)
    ∧ ((easy_mouse_translator inb cb lbd e w).calls.map Delivery.msg =
        if inb e w = true ∨ w.Mouse.forced_capture = true
        then [MSG_MOUSE_UP, MSG_MOUSE_CLICK] else [MSG_MOUSE_UP]) := by
  have hc : classify inb lbd e w =
      { w := { w with Mouse := { w.Mouse with capture := false } },
        event := if e.buttons = 0 then { e with buttons := lbd } else e,
        last_buttons_down := lbd, msg := some MSG_MOUSE_UP,
        run_click := if w.Mouse.forced_capture then true else inb e w } := by
    unfold classify
    simp [hrel, hnopress, hcap]
  simp only [easy_mouse_translator, hc]
  refine ⟨?_, ?_, ?_, ?_⟩
  · intro hcb
    cases hf : w.Mouse.forced_capture <;> cases hb : inb e w <;> simp [hcb _ _ _]
  · intro hcb
    cases hf : w.Mouse.forced_capture <;> cases hb : inb e w <;> simp [hcb _ _ _]
  · cases hf : w.Mouse.forced_capture <;> cases hb : inb e w <;> simp
  · cases hf : w.Mouse.forced_capture <;> cases hb : inb e w <;> simp

/-- C2 witness: the scenario's widget while it holds the capture, release at (15,10). -/
theorem C2_release_up_click_witness :
    keeps_capture cb_idle
    ∧ (easy_mouse_translator mouse_global_in_widget cb_idle 0 ev_release0
        w_scn_captured).w.Mouse.capture = false
    ∧ ((easy_mouse_translator mouse_global_in_widget cb_idle 0 ev_release0
        w_scn_captured).calls.map Delivery.msg = [MSG_MOUSE_UP, MSG_MOUSE_CLICK]) :=
  ⟨cb_idle_keeps_capture,
    (C2_release_up_click mouse_global_in_widget cb_idle 0 ev_release0 w_scn_captured
      rfl (by decide) (by decide)).1 cb_idle_keeps_capture,
    (C2_release_up_click mouse_global_in_widget cb_idle 0 ev_release0 w_scn_captured
      rfl (by decide) (by decide)).2.2.2⟩

/-- C3, as stated, fails: the events delivered to widget `A` are a press of the left button
and then an empty-mask release, processed while `A` holds the capture; in between, another
widget `B` processes a press of the middle button. `A`'s Up and Click carry the middle button,
not the left button recorded at `A`'s press. -/
theorem C3_counterexample :
    (pair_after mouse_global_in_widget cb_idle cb_idle
        { wA := w_scn, wB := w_other, last_buttons_down := 0 }
        es_interleaved_middle).wA.Mouse.capture = true
    ∧ ev_release0.type &&& GPM_UP ≠ 0 ∧ ev_release0.type &&& GPM_DOWN = 0
    ∧ ev_release0.buttons = 0
    ∧ last_press_mask_of Target.A none
        (run_pair mouse_global_in_widget cb_idle cb_idle
          { wA := w_scn, wB := w_other, last_buttons_down := 0 } es_interleaved_middle)
      = some GPM_B_LEFT
    ∧ ((route_pair mouse_global_in_widget cb_idle cb_idle
          (pair_after mouse_global_in_widget cb_idle cb_idle
            { wA := w_scn, wB := w_other, last_buttons_down := 0 } es_interleaved_middle)
          Target.A ev_release0).calls.map (fun d => (d.msg, d.event.buttons)))
      = [(MSG_MOUSE_UP, GPM_B_MIDDLE), (MSG_MOUSE_CLICK, GPM_B_MIDDLE)]
    ∧ GPM_B_MIDDLE ≠ GPM_B_LEFT := by
  decide

/-- C3, amended: `last_buttons_down` being one variable for all widgets, take any sequence of
events routed to a widget `A` and to another widget `B` (`A` starting without capture, its
callback not writing the capture flag) that ends in a release processed by `A` while `A`
holds the capture. If the release's mask is empty, `A`'s Up (and Click, the callback leaving
the mask of the record alone) carries the mask of the most recent press that dispatched a
Down, whichever widget processed it: that is `A`'s own most recent such press when it is the
most recent of both widgets, in particular when every event of the sequence went to `A`. If
the release's mask is not empty, the messages carry it unchanged. -/
theorem C3_release_mask (inb : Gpm_Event → Widget → Bool) (cbA cbB : easy_mouse_callback)
    (s0 : Pair) (es : List (Target × Gpm_Event)) (e : Gpm_Event)
    (hcb : keeps_capture cbA)
    (h0 : s0.wA.Mouse.capture = false)
    (hcap : (pair_after inb cbA cbB s0 es).wA.Mouse.capture = true)
    (hrel : e.type &&& GPM_UP ≠ 0) (hnopress : e.type &&& GPM_DOWN = 0) :
    ∃ m, last_press_mask_any none (run_pair inb cbA cbB s0 es) = some m
      ∧ (∃ d, (route_pair inb cbA cbB (pair_after inb cbA cbB s0 es) Target.A e).calls.head?
              = some d
            ∧ d.msg = MSG_MOUSE_UP
            ∧ d.event.buttons = if e.buttons = 0 then m else e.buttons)
      ∧ (keeps_buttons cbA →
          ∀ d ∈ (route_pair inb cbA cbB (pair_after inb cbA cbB s0 es) Target.A e).calls,
            d.event.buttons = if e.buttons = 0 then m else e.buttons)
      ∧ (last_press_target none (run_pair inb cbA cbB s0 es) = some Target.A →
          last_press_mask_of Target.A none (run_pair inb cbA cbB s0 es) = some m)
      ∧ ((∀ p ∈ es, p.1 = Target.A) →
          last_press_mask_of Target.A none (run_pair inb cbA cbB s0 es) = some m) := by
  have hmask := pair_press_mask inb cbA cbB hcb es s0 none (by simp [h0]) hcap
  refine ⟨(pair_after inb cbA cbB s0 es).last_buttons_down, hmask, ?_, ?_, ?_, ?_⟩
  · simp only [route_pair]
    generalize (pair_after inb cbA cbB s0 es).last_buttons_down = lbd at *
    generalize (pair_after inb cbA cbB s0 es).wA = w at *
    have hc : classify inb lbd e w =
        { w := { w with Mouse := { w.Mouse with capture := false } },
          event := if e.buttons = 0 then { e with buttons := lbd } else e,
          last_buttons_down := lbd, msg := some MSG_MOUSE_UP,
          run_click := if w.Mouse.forced_capture then true else inb e w } := by
      simp [classify, hrel, hnopress, hcap]
    simp only [easy_mouse_translator, hc]
    split_ifs <;> simp [init_mouse_event]
  · simp only [route_pair]
    generalize (pair_after inb cbA cbB s0 es).last_buttons_down = lbd at *
    generalize (pair_after inb cbA cbB s0 es).wA = w at *
    have hc : classify inb lbd e w =
        { w := { w with Mouse := { w.Mouse with capture := false } },
          event := if e.buttons = 0 then { e with buttons := lbd } else e,
          last_buttons_down := lbd, msg := some MSG_MOUSE_UP,
          run_click := if w.Mouse.forced_capture then true else inb e w } := by
      simp [classify, hrel, hnopress, hcap]
    simp only [easy_mouse_translator, hc]
    intro hkb
    split_ifs <;> simp [init_mouse_event, hkb _ _ _]
  · intro ht
    rw [← hmask]
    exact (last_press_mask_of_target _ none none none (fun h => by cases h) ht).symm
  · intro hall
    rw [← hmask]
    exact (last_press_mask_of_all _ (run_pair_targets inb cbA cbB es hall s0) none).symm

/-- C3 witness: the scenario with every event routed to `A`: press left at (15,10), then a
release with an empty mask at (15,10): Up and Click both carry the left button, the mask of
`A`'s own press. -/
theorem C3_release_mask_witness :
    keeps_buttons cb_idle
    ∧ (∀ p ∈ [(Target.A, ev_press)], p.1 = Target.A)
    ∧ last_press_mask_of Target.A none
        (run_pair mouse_global_in_widget cb_idle cb_idle
          { wA := w_scn, wB := w_other, last_buttons_down := 0 } [(Target.A, ev_press)])
      = some GPM_B_LEFT
    ∧ ((route_pair mouse_global_in_widget cb_idle cb_idle
          (pair_after mouse_global_in_widget cb_idle cb_idle
            { wA := w_scn, wB := w_other, last_buttons_down := 0 } [(Target.A, ev_press)])
          Target.A ev_release0).calls.map
        (fun d => (d.msg, d.event.x, d.event.y, d.event.buttons)))
        = [(MSG_MOUSE_UP, 4, 4, GPM_B_LEFT), (MSG_MOUSE_CLICK, 4, 4, GPM_B_LEFT)]
    ∧ (∃ m, last_press_mask_of Target.A none
          (run_pair mouse_global_in_widget cb_idle cb_idle
            { wA := w_scn, wB := w_other, last_buttons_down := 0 } [(Target.A, ev_press)])
          = some m
        ∧ ∀ d ∈ (route_pair mouse_global_in_widget cb_idle cb_idle
            (pair_after mouse_global_in_widget cb_idle cb_idle
              { wA := w_scn, wB := w_other, last_buttons_down := 0 } [(Target.A, ev_press)])
            Target.A ev_release0).calls,
          d.event.buttons = if ev_release0.buttons = 0 then m else ev_release0.buttons) := by
  obtain ⟨m, _, _, hall, _, hown⟩ :=
    C3_release_mask mouse_global_in_widget cb_idle cb_idle
      { wA := w_scn, wB := w_other, last_buttons_down := 0 } [(Target.A, ev_press)]
      ev_release0 cb_idle_keeps_capture rfl (by decide) (by decide) (by decide)
  exact ⟨cb_idle_keeps_buttons, by decide, by decide, by decide, m, hown (by decide),
    hall cb_idle_keeps_buttons⟩

/-- C4: the returned value. With no callback invocation it is `MOU_UNHANDLED`; otherwise,
`r` being the result record as the last invocation leaves it, it is `MOU_UNHANDLED` when
`r.abort` is set, else `MOU_REPEAT` when `r.repeat` is set, else `MOU_NORMAL`. When the
callback never writes to the result, the value is `MOU_NORMAL` exactly when a message was
dispatched. -/
theorem C4_return_value (inb : Gpm_Event → Widget → Bool) (cb : easy_mouse_callback)
    (lbd : Nat) (e : Gpm_Event) (w : Widget) :
    ((easy_mouse_translator inb cb lbd e w).calls = [] →
        (easy_mouse_translator inb cb lbd e w).ret = MOU_UNHANDLED)
    ∧ (∀ d, (easy_mouse_translator inb cb lbd e w).calls.getLast? = some d →
        (easy_mouse_translator inb cb lbd e w).ret =
          if (cb d.w d.msg d.event).2.result.abort = true then MOU_UNHANDLED
          else if (cb d.w d.msg d.event).2.result.«repeat» = true then MOU_REPEAT
          else MOU_NORMAL)
    ∧ ((∀ w1 m ev, (cb w1 m ev).2.result = ev.result) →
        ((easy_mouse_translator inb cb lbd e w).ret = MOU_NORMAL ↔
          (easy_mouse_translator inb cb lbd e w).calls ≠ [])) := by
  cases hm : (classify inb lbd e w).msg with
  | none =>
    rw [translator_of_none inb cb lbd e w hm]
    simp
  | some m =>
    cases hr : (classify inb lbd e w).run_click
    · rw [translator_of_single inb cb lbd e w m hm hr]
      refine ⟨by simp, ?_, ?_⟩
      · intro d hd
        simp only [List.getLast?_singleton, Option.some.injEq] at hd
        subst hd
        exact mou_of_result_eq _
      · intro hres
        simp [mou_of_result, hres, init_mouse_event]
    · rw [translator_of_click inb cb lbd e w m hm hr]
      refine ⟨by simp, ?_, ?_⟩
      · intro d hd
        simp only [List.getLast?_cons_cons, List.getLast?_singleton, Option.some.injEq] at hd
        subst hd
        exact mou_of_result_eq _
      · intro hres
        simp [mou_of_result, hres, init_mouse_event]

/-- C4 witness: the scenario's press with a callback that writes to nothing. -/
theorem C4_return_value_witness :
    (∀ w1 m ev, (cb_idle w1 m ev).2.result = ev.result)
    ∧ (easy_mouse_translator mouse_global_in_widget cb_idle 0 ev_press w_scn).calls ≠ []
    ∧ (easy_mouse_translator mouse_global_in_widget cb_idle 0 ev_press w_scn).ret = MOU_NORMAL :=
  ⟨fun _ _ _ => rfl, by decide,
    ((C4_return_value mouse_global_in_widget cb_idle 0 ev_press w_scn).2.2
      (fun _ _ _ => rfl)).mpr (by decide)⟩

/-- C5, as stated, fails: on a release in the widget while captured, the callback
`cb_abort_on_up` sets abort during the Up delivery and clears it during the Click delivery on
the same record; the value returned is `MOU_NORMAL`, not `MOU_UNHANDLED`. -/
theorem C5_counterexample :
    ((easy_mouse_translator mouse_global_in_widget cb_abort_on_up 0 ev_release0
        w_scn_captured).calls.map
      (fun d => (d.msg, (cb_abort_on_up d.w d.msg d.event).2.result.abort)))
      = [(MSG_MOUSE_UP, true), (MSG_MOUSE_CLICK, false)]
    ∧ (easy_mouse_translator mouse_global_in_widget cb_abort_on_up 0 ev_release0
        w_scn_captured).ret = MOU_NORMAL := by
  decide

/-- C5, amended: the value returned is `MOU_UNHANDLED` whenever abort is set on the result
record as the last delivery for the event leaves it; and, for a callback that never clears an
abort flag it finds set, whenever the callback sets abort during any of the deliveries (the Up
delivery of a release followed by a Click included). -/
theorem C5_abort_unhandled (inb : Gpm_Event → Widget → Bool) (cb : easy_mouse_callback)
    (lbd : Nat) (e : Gpm_Event) (w : Widget) :
    (∀ d, (easy_mouse_translator inb cb lbd e w).calls.getLast? = some d →
        (cb d.w d.msg d.event).2.result.abort = true →
        (easy_mouse_translator inb cb lbd e w).ret = MOU_UNHANDLED)
    ∧ ((∀ w1 m ev, ev.result.abort = true → (cb w1 m ev).2.result.abort = true) →
        ∀ d ∈ (easy_mouse_translator inb cb lbd e w).calls,
          (cb d.w d.msg d.event).2.result.abort = true →
          (easy_mouse_translator inb cb lbd e w).ret = MOU_UNHANDLED) := by
  cases hm : (classify inb lbd e w).msg with
  | none =>
    rw [translator_of_none inb cb lbd e w hm]
    simp
  | some m =>
    cases hr : (classify inb lbd e w).run_click
    · rw [translator_of_single inb cb lbd e w m hm hr]
      refine ⟨?_, ?_⟩
      · intro d hd ha
        simp only [List.getLast?_singleton, Option.some.injEq] at hd
        subst hd
        simp [mou_of_result, ha]
      · intro _ d hd ha
        simp only [List.mem_singleton] at hd
        subst hd
        simp [mou_of_result, ha]
    · rw [translator_of_click inb cb lbd e w m hm hr]
      refine ⟨?_, ?_⟩
      · intro d hd ha
        simp only [List.getLast?_cons_cons, List.getLast?_singleton, Option.some.injEq] at hd
        subst hd
        simp [mou_of_result, ha]
      · intro hmono d hd ha
        simp only [List.mem_cons, List.mem_singleton, List.not_mem_nil, or_false] at hd
        rcases hd with hd | hd
        · subst hd
          simp [mou_of_result, hmono _ _ _ ha]
        · subst hd
          simp [mou_of_result, ha]

/-- C5 witness: a callback that declines everything, on a release in the widget while
captured: Up and Click are delivered and the value returned is `MOU_UNHANDLED`. -/
theorem C5_abort_unhandled_witness :
    (∀ w1 m ev, ev.result.abort = true → (cb_decline w1 m ev).2.result.abort = true)
    ∧ ((easy_mouse_translator mouse_global_in_widget cb_decline 0 ev_release0
          w_scn_captured).calls.map Delivery.msg) = [MSG_MOUSE_UP, MSG_MOUSE_CLICK]
    ∧ (easy_mouse_translator mouse_global_in_widget cb_decline 0 ev_release0
          w_scn_captured).ret = MOU_UNHANDLED :=
  ⟨fun _ _ _ _ => rfl, by decide,
    (C5_abort_unhandled mouse_global_in_widget cb_decline 0 ev_release0 w_scn_captured).2
      (fun _ _ _ _ => rfl)
      ⟨w_scn, MSG_MOUSE_UP, init_mouse_event MSG_MOUSE_UP
        { ev_release0 with buttons := 0 } w_scn⟩
      (by decide) rfl⟩

/-- C6, as stated, fails: on a widget with forced_capture set, a wheel-up press whose position
is outside the widget's rectangle dispatches a ScrollUp. -/
theorem C6_counterexample :
    ev_wheel_up_far.type &&& GPM_DOWN ≠ 0 ∧ ev_wheel_up_far.buttons &&& GPM_B_UP ≠ 0
    ∧ mouse_global_in_widget ev_wheel_up_far w_forced = false
    ∧ ((easy_mouse_translator mouse_global_in_widget cb_idle 0 ev_wheel_up_far w_forced).calls.map
        Delivery.msg) = [MSG_MOUSE_SCROLL_UP] := by
  decide

/-- C6, amended: a press whose button mask has the wheel-up or the wheel-down bit (alone or with
other bits) leaves `last_buttons_down` and the widget as they were before the callback runs,
and the capture flag as it was on return (the callback not writing to it); exactly one message
is dispatched when the event is in the widget (in bounds, or forced_capture set), ScrollUp when
the wheel-up bit is set and ScrollDown otherwise, and none when it is not. -/
theorem C6_wheel_press (inb : Gpm_Event → Widget → Bool) (cb : easy_mouse_callback)
    (lbd : Nat) (e : Gpm_Event) (w : Widget)
    (hpress : e.type &&& GPM_DOWN ≠ 0)
    (hwheel : e.buttons &&& GPM_B_UP ≠ 0 ∨ e.buttons &&& GPM_B_DOWN ≠ 0) :
    (keeps_capture cb →
        (easy_mouse_translator inb cb lbd e w).w.Mouse.capture = w.Mouse.capture)
    ∧ (easy_mouse_translator inb cb lbd e w).last_buttons_down = lbd
    ∧ (∀ d ∈ (easy_mouse_translator inb cb lbd e w).calls, d.w = w)
    ∧ ((easy_mouse_translator inb cb lbd e w).calls.map Delivery.msg =
        if inb e w = true ∨ w.Mouse.forced_capture = true
        then [if e.buttons &&& GPM_B_UP ≠ 0 then MSG_MOUSE_SCROLL_UP else MSG_MOUSE_SCROLL_DOWN]
        else []) := by
  cases hf : w.Mouse.forced_capture <;> cases hb : inb e w <;>
    by_cases hu : e.buttons &&& GPM_B_UP = 0 <;>
    rcases hwheel with hw | hw <;>
    simp_all [easy_mouse_translator, classify, keeps_capture]

/-- C6 witness: a wheel-up press inside the scenario's widget while it holds the capture. -/
theorem C6_wheel_press_witness :
    keeps_capture cb_idle
    ∧ (easy_mouse_translator mouse_global_in_widget cb_idle 7 ev_wheel_up
        w_scn_captured).w.Mouse.capture = true
    ∧ (easy_mouse_translator mouse_global_in_widget cb_idle 7 ev_wheel_up
        w_scn_captured).last_buttons_down = 7
    ∧ (∀ d ∈ (easy_mouse_translator mouse_global_in_widget cb_idle 7 ev_wheel_up
        w_scn_captured).calls, d.w = w_scn_captured)
    ∧ ((easy_mouse_translator mouse_global_in_widget cb_idle 7 ev_wheel_up
        w_scn_captured).calls.map Delivery.msg = [MSG_MOUSE_SCROLL_UP]) :=
  ⟨cb_idle_keeps_capture,
    (C6_wheel_press mouse_global_in_widget cb_idle 7 ev_wheel_up w_scn_captured (by decide)
      (Or.inl (by decide))).1 cb_idle_keeps_capture,
    (C6_wheel_press mouse_global_in_widget cb_idle 7 ev_wheel_up w_scn_captured (by decide)
      (Or.inl (by decide))).2⟩

/-- C7, as stated, fails: a wheel-up press outside the widget (out of bounds, forced_capture
not set) dispatches nothing, no ScrollUp and no other message; and a press inside the widget
whose mask has the wheel-down bit together with the wheel-up bit dispatches ScrollUp, not
ScrollDown. -/
theorem C7_counterexample :
    (ev_wheel_up_far.type &&& GPM_DOWN ≠ 0 ∧ ev_wheel_up_far.buttons &&& GPM_B_UP ≠ 0
      ∧ mouse_global_in_widget ev_wheel_up_far w_scn = false
      ∧ w_scn.Mouse.forced_capture = false
      ∧ (easy_mouse_translator mouse_global_in_widget cb_idle 0 ev_wheel_up_far w_scn).calls = []
      ∧ (easy_mouse_translator mouse_global_in_widget cb_idle 0 ev_wheel_up_far w_scn).ret
          = MOU_UNHANDLED)
    ∧ (ev_wheel_both.type &&& GPM_DOWN ≠ 0 ∧ ev_wheel_both.buttons &&& GPM_B_DOWN ≠ 0
      ∧ mouse_global_in_widget ev_wheel_both w_scn = true
      ∧ (easy_mouse_translator mouse_global_in_widget cb_idle 0 ev_wheel_both w_scn).calls.map
          Delivery.msg = [MSG_MOUSE_SCROLL_UP]) := by
  decide

/-- C7, amended: for a press that is in the widget (in bounds, or forced_capture set), whatever
the capture state: with the wheel-up bit the one message dispatched is ScrollUp; with the
wheel-down bit and without the wheel-up bit it is ScrollDown. A press that is not in the widget
dispatches nothing. For a wheel press the capture flag is as before when the callback does not
write to it. -/
theorem C7_wheel_in_widget (inb : Gpm_Event → Widget → Bool) (cb : easy_mouse_callback)
    (lbd : Nat) (e : Gpm_Event) (w : Widget)
    (hpress : e.type &&& GPM_DOWN ≠ 0) :
    (inb e w = true ∨ w.Mouse.forced_capture = true → e.buttons &&& GPM_B_UP ≠ 0 →
        (easy_mouse_translator inb cb lbd e w).calls.map Delivery.msg = [MSG_MOUSE_SCROLL_UP])
    ∧ (inb e w = true ∨ w.Mouse.forced_capture = true →
        e.buttons &&& GPM_B_UP = 0 → e.buttons &&& GPM_B_DOWN ≠ 0 →
        (easy_mouse_translator inb cb lbd e w).calls.map Delivery.msg = [MSG_MOUSE_SCROLL_DOWN])
    ∧ (inb e w = false → w.Mouse.forced_capture = false →
        (easy_mouse_translator inb cb lbd e w).calls = []
        ∧ (easy_mouse_translator inb cb lbd e w).w = w)
    ∧ (e.buttons &&& GPM_B_UP ≠ 0 ∨ e.buttons &&& GPM_B_DOWN ≠ 0 → keeps_capture cb →
        (easy_mouse_translator inb cb lbd e w).w.Mouse.capture = w.Mouse.capture) := by
  refine ⟨?_, ?_, ?_, ?_⟩
  · intro hin hu
    rcases hin with h | h <;> simp [easy_mouse_translator, classify, hpress, hu, h]
  · intro hin hu hd
    rcases hin with h | h <;> simp [easy_mouse_translator, classify, hpress, hu, hd, h]
  · intro hb hf
    simp [easy_mouse_translator, classify, hpress, hb, hf]
  · intro hw hcb
    cases hf : w.Mouse.forced_capture <;> cases hb : inb e w <;>
      by_cases hu : e.buttons &&& GPM_B_UP = 0 <;>
      rcases hw with hw | hw <;>
      simp_all [easy_mouse_translator, classify, keeps_capture]

/-- C7 witness: a wheel-up press inside the scenario's widget, not capturing. -/
theorem C7_wheel_in_widget_witness :
    (easy_mouse_translator mouse_global_in_widget cb_idle 0 ev_wheel_up w_scn).calls.map
        Delivery.msg = [MSG_MOUSE_SCROLL_UP]
    ∧ keeps_capture cb_idle
    ∧ (easy_mouse_translator mouse_global_in_widget cb_idle 0 ev_wheel_up w_scn).w.Mouse.capture
        = false :=
  ⟨(C7_wheel_in_widget mouse_global_in_widget cb_idle 0 ev_wheel_up w_scn (by decide)).1
      (Or.inl (by decide)) (by decide),
   cb_idle_keeps_capture,
   (C7_wheel_in_widget mouse_global_in_widget cb_idle 0 ev_wheel_up w_scn (by decide)).2.2.2
      (Or.inl (by decide)) cb_idle_keeps_capture⟩

/-- C8: for a drag event (drag bit, neither press nor release bit), a Drag is dispatched if
and only if the capture flag is set, whatever the bounds test answers; without capture nothing
is dispatched and the value returned is `MOU_UNHANDLED`; the capture flag (the callback not
writing to it) and `last_buttons_down` are as before. -/
theorem C8_drag (inb : Gpm_Event → Widget → Bool) (cb : easy_mouse_callback)
    (lbd : Nat) (e : Gpm_Event) (w : Widget)
    (hdrag : e.type &&& GPM_DRAG ≠ 0)
    (hnopress : e.type &&& GPM_DOWN = 0) (hnorelease : e.type &&& GPM_UP = 0) :
    ((easy_mouse_translator inb cb lbd e w).calls =
        if w.Mouse.capture = true then [⟨w, MSG_MOUSE_DRAG, init_mouse_event MSG_MOUSE_DRAG e w⟩]
        else [])
    ∧ (w.Mouse.capture = false →
        (easy_mouse_translator inb cb lbd e w).ret = MOU_UNHANDLED)
    ∧ (keeps_capture cb →
        (easy_mouse_translator inb cb lbd e w).w.Mouse.capture = w.Mouse.capture)
    ∧ (easy_mouse_translator inb cb lbd e w).last_buttons_down = lbd
    ∧ (∀ inb2 : Gpm_Event → Widget → Bool,
        easy_mouse_translator inb2 cb lbd e w = easy_mouse_translator inb cb lbd e w) := by
  have hc : ∀ t : Gpm_Event → Widget → Bool, classify t lbd e w =
      { w := w, event := e, last_buttons_down := lbd,
        msg := if w.Mouse.capture = true then some MSG_MOUSE_DRAG else none,
        run_click := false } := by
    intro t
    cases hcap : w.Mouse.capture <;> simp [classify, hdrag, hnopress, hnorelease, hcap]
  cases hcap : w.Mouse.capture
  · simp [easy_mouse_translator, hc, hcap]
  · simp only [easy_mouse_translator, hc, hcap]
    refine ⟨by simp, by simp, fun hcb => ?_, by simp, by simp⟩
    simp [hcb _ _ _, hcap]

/-- C8 witness: drags far outside the scenario's widget, with and without capture. -/
theorem C8_drag_witness :
    ((easy_mouse_translator mouse_global_in_widget cb_idle 4 ev_drag_far w_scn_captured).calls
        = [⟨w_scn_captured, MSG_MOUSE_DRAG,
            init_mouse_event MSG_MOUSE_DRAG ev_drag_far w_scn_captured⟩])
    ∧ (easy_mouse_translator mouse_global_in_widget cb_idle 4 ev_drag_far w_scn).calls = []
    ∧ (easy_mouse_translator mouse_global_in_widget cb_idle 4 ev_drag_far w_scn).ret
        = MOU_UNHANDLED
    ∧ keeps_capture cb_idle
    ∧ (easy_mouse_translator mouse_global_in_widget cb_idle 4 ev_drag_far
        w_scn_captured).w.Mouse.capture = true :=
  ⟨(C8_drag mouse_global_in_widget cb_idle 4 ev_drag_far w_scn_captured (by decide)
      (by decide) (by decide)).1,
   (C8_drag mouse_global_in_widget cb_idle 4 ev_drag_far w_scn (by decide) (by decide)
      (by decide)).1,
   (C8_drag mouse_global_in_widget cb_idle 4 ev_drag_far w_scn (by decide) (by decide)
      (by decide)).2.1 rfl,
   cb_idle_keeps_capture,
   (C8_drag mouse_global_in_widget cb_idle 4 ev_drag_far w_scn_captured (by decide)
      (by decide) (by decide)).2.2.1 cb_idle_keeps_capture⟩

/-- C9: for a move event (move bit, none of the press, release and drag bits), a Move is
dispatched if and only if the event is in the widget (in bounds, or forced_capture set); the
capture flag (the callback not writing to it) and `last_buttons_down` are as before; and the
message dispatched, with its event record, is the same whether the capture flag is set or not,
the bounds test answering the same. -/
theorem C9_move (inb : Gpm_Event → Widget → Bool) (cb : easy_mouse_callback)
    (lbd : Nat) (e : Gpm_Event) (w : Widget)
    (hmove : e.type &&& GPM_MOVE ≠ 0)
    (hnopress : e.type &&& GPM_DOWN = 0) (hnorelease : e.type &&& GPM_UP = 0)
    (hnodrag : e.type &&& GPM_DRAG = 0) :
    ((easy_mouse_translator inb cb lbd e w).calls =
        if inb e w = true ∨ w.Mouse.forced_capture = true
        then [⟨w, MSG_MOUSE_MOVE, init_mouse_event MSG_MOUSE_MOVE e w⟩] else [])
    ∧ (keeps_capture cb →
        (easy_mouse_translator inb cb lbd e w).w.Mouse.capture = w.Mouse.capture)
    ∧ (easy_mouse_translator inb cb lbd e w).last_buttons_down = lbd
    ∧ (∀ c : Bool, inb e { w with Mouse := { w.Mouse with capture := c } } = inb e w →
        (easy_mouse_translator inb cb lbd e
            { w with Mouse := { w.Mouse with capture := c } }).calls.map
          (fun d => (d.msg, d.event))
        = (easy_mouse_translator inb cb lbd e w).calls.map (fun d => (d.msg, d.event))) := by
  have hc : ∀ w1 : Widget, classify inb lbd e w1 =
      { w := w1, event := e, last_buttons_down := lbd,
        msg := if inb e w1 = true ∨ w1.Mouse.forced_capture = true
               then some MSG_MOUSE_MOVE else none,
        run_click := false } := by
    intro w1
    cases hf : w1.Mouse.forced_capture <;> cases hb : inb e w1 <;>
      simp [classify, hmove, hnopress, hnorelease, hnodrag, hf, hb]
  refine ⟨?_, ?_, ?_, ?_⟩
  · cases hf : w.Mouse.forced_capture <;> cases hb : inb e w <;>
      simp [easy_mouse_translator, hc, hf, hb]
  · intro hcb
    cases hf : w.Mouse.forced_capture <;> cases hb : inb e w <;>
      simp [easy_mouse_translator, hc, hf, hb, hcb _ _ _]
  · cases hf : w.Mouse.forced_capture <;> cases hb : inb e w <;>
      simp [easy_mouse_translator, hc, hf, hb]
  · intro c hsame
    cases hf : w.Mouse.forced_capture <;> cases hb : inb e w <;>
      simp only [hf, hb] at hsame <;>
      simp [easy_mouse_translator, hc, hf, hb, hsame, init_mouse_event]

/-- C9 witness: a motion inside the scenario's widget, capture not set, and the same with the
capture flag set. -/
theorem C9_move_witness :
    ((easy_mouse_translator mouse_global_in_widget cb_idle 0 ev_move w_scn).calls =
        [⟨w_scn, MSG_MOUSE_MOVE, init_mouse_event MSG_MOUSE_MOVE ev_move w_scn⟩])
    ∧ keeps_capture cb_idle
    ∧ (easy_mouse_translator mouse_global_in_widget cb_idle 0 ev_move w_scn).w.Mouse.capture
        = false
    ∧ ((easy_mouse_translator mouse_global_in_widget cb_idle 0 ev_move
            { w_scn with Mouse := { w_scn.Mouse with capture := true } }).calls.map
          (fun d => (d.msg, d.event))
        = (easy_mouse_translator mouse_global_in_widget cb_idle 0 ev_move w_scn).calls.map
          (fun d => (d.msg, d.event))) :=
  ⟨(C9_move mouse_global_in_widget cb_idle 0 ev_move w_scn (by decide) (by decide) (by decide)
      (by decide)).1,
   cb_idle_keeps_capture,
   (C9_move mouse_global_in_widget cb_idle 0 ev_move w_scn (by decide) (by decide) (by decide)
      (by decide)).2.1 cb_idle_keeps_capture,
   (C9_move mouse_global_in_widget cb_idle 0 ev_move w_scn (by decide) (by decide) (by decide)
      (by decide)).2.2.2 true (by decide)⟩

/-- C10, as stated, fails: for a release with an empty button mask on a capturing widget, the
first message dispatched (Up) carries the remembered mask, not the mask of the raw event it was
given, which `init_mouse_event` would copy as 0. -/
theorem C10_counterexample :
    ev_release0.buttons = 0
    ∧ (init_mouse_event MSG_MOUSE_UP ev_release0 w_scn_captured).buttons = 0
    ∧ ((easy_mouse_translator mouse_global_in_widget cb_idle GPM_B_LEFT ev_release0
          w_scn_captured).calls.head?.map (fun d => (d.msg, d.event.buttons)))
        = some (MSG_MOUSE_UP, GPM_B_LEFT)
    ∧ GPM_B_LEFT ≠ 0 := by
  decide

/-- C10, amended: `init_mouse_event` gives `x` and `y` as the C `int` expressions
`raw.x - w.x - 1` and `raw.y - w.y - 1` (the values `raw.x - w.x - 1`, `raw.y - w.y - 1`
themselves whenever the subtractions stay in the range of `int`), `count` = the raw type
restricted to the single/double/triple bits (so none of the press, release, drag, move bits),
`buttons` = the raw mask, result = (abort false, repeat false); and the first message
`easy_mouse_translator` dispatches is never a Click and carries exactly these values for the
raw event it was given, except that the Up of a release whose raw mask is empty carries
`last_buttons_down` as its button mask. -/
theorem C10_normalized_event (inb : Gpm_Event → Widget → Bool) (cb : easy_mouse_callback)
    (lbd : Nat) (e : Gpm_Event) (w : Widget) :
    (∀ msg, init_mouse_event msg e w =
        { msg := msg, x := int_sub (int_sub e.x w.x) 1, y := int_sub (int_sub e.y w.y) 1,
          count := e.type &&& (GPM_SINGLE ||| GPM_DOUBLE ||| GPM_TRIPLE),
          buttons := e.buttons, result := { abort := false, «repeat» := false } })
    ∧ (in_int (e.x - w.x) → in_int (e.x - w.x - 1) →
        ∀ msg, (init_mouse_event msg e w).x = e.x - w.x - 1)
    ∧ (in_int (e.y - w.y) → in_int (e.y - w.y - 1) →
        ∀ msg, (init_mouse_event msg e w).y = e.y - w.y - 1)
    ∧ (∀ msg, (init_mouse_event msg e w).count &&& (GPM_DOWN ||| GPM_UP ||| GPM_DRAG ||| GPM_MOVE)
        = 0)
    ∧ (∀ d, (easy_mouse_translator inb cb lbd e w).calls.head? = some d →
        d.msg ≠ MSG_MOUSE_CLICK
        ∧ d.event =
            { msg := d.msg, x := int_sub (int_sub e.x w.x) 1,
              y := int_sub (int_sub e.y w.y) 1,
              count := e.type &&& (GPM_SINGLE ||| GPM_DOUBLE ||| GPM_TRIPLE),
              buttons := if d.msg = MSG_MOUSE_UP ∧ e.buttons = 0 then lbd else e.buttons,
              result := { abort := false, «repeat» := false } }
        ∧ (in_int (e.x - w.x) → in_int (e.x - w.x - 1) → d.event.x = e.x - w.x - 1)
        ∧ (in_int (e.y - w.y) → in_int (e.y - w.y - 1) → d.event.y = e.y - w.y - 1)) := by
  have hmain : ∀ d, (easy_mouse_translator inb cb lbd e w).calls.head? = some d →
      d.msg ≠ MSG_MOUSE_CLICK
      ∧ d.event =
          { msg := d.msg, x := int_sub (int_sub e.x w.x) 1,
            y := int_sub (int_sub e.y w.y) 1,
            count := e.type &&& (GPM_SINGLE ||| GPM_DOUBLE ||| GPM_TRIPLE),
            buttons := if d.msg = MSG_MOUSE_UP ∧ e.buttons = 0 then lbd else e.buttons,
            result := { abort := false, «repeat» := false } } := by
    intro d hd
    rcases classify_cases inb lbd e w with h | ⟨m, h1, h2, h3, h⟩ | h | ⟨hcap, rc, h⟩
    · simp [easy_mouse_translator, h] at hd
    · simp only [easy_mouse_translator, h, Bool.false_eq_true, if_false, List.head?_cons,
        Option.some.injEq] at hd
      subst hd
      simp [init_mouse_event, h2, h3]
    · simp only [easy_mouse_translator, h, Bool.false_eq_true, if_false, List.head?_cons,
        Option.some.injEq] at hd
      subst hd
      simp [init_mouse_event]
    · cases rc <;>
        simp only [easy_mouse_translator, h, Bool.false_eq_true, if_false, if_true,
          List.head?_cons, Option.some.injEq] at hd <;>
        subst hd <;>
        by_cases hb : e.buttons = 0 <;>
        simp [init_mouse_event, hb]
  refine ⟨fun _ => rfl, ?_, ?_, ?_, ?_⟩
  · intro h1 h2 msg
    exact int_sub_sub_of_in_int e.x w.x h1 h2
  · intro h1 h2 msg
    exact int_sub_sub_of_in_int e.y w.y h1 h2
  · intro msg
    simp only [init_mouse_event, Nat.land_assoc]
    have : (GPM_SINGLE ||| GPM_DOUBLE ||| GPM_TRIPLE) &&&
        (GPM_DOWN ||| GPM_UP ||| GPM_DRAG ||| GPM_MOVE) = 0 := by decide
    rw [this]
    simp
  · intro d hd
    obtain ⟨hm, hev⟩ := hmain d hd
    refine ⟨hm, hev, ?_, ?_⟩
    · intro h1 h2
      rw [hev]
      exact int_sub_sub_of_in_int e.x w.x h1 h2
    · intro h1 h2
      rw [hev]
      exact int_sub_sub_of_in_int e.y w.y h1 h2

/-- C10 witness: the scenario's press: the subtractions stay in range and the Down carries
local (4,4), no click count, the left button and a clear result. -/
theorem C10_normalized_event_witness :
    (easy_mouse_translator mouse_global_in_widget cb_idle 0 ev_press w_scn).calls.head?
      = some dl_scn_down
    ∧ in_int (ev_press.x - w_scn.x) ∧ in_int (ev_press.x - w_scn.x - 1)
    ∧ in_int (ev_press.y - w_scn.y) ∧ in_int (ev_press.y - w_scn.y - 1)
    ∧ dl_scn_down.msg ≠ MSG_MOUSE_CLICK
    ∧ dl_scn_down.event =
        { msg := MSG_MOUSE_DOWN, x := 4, y := 4, count := 0, buttons := GPM_B_LEFT,
          result := { abort := false, «repeat» := false } }
    ∧ dl_scn_down.event.x = 15 - 10 - 1
    ∧ dl_scn_down.event.y = 10 - 5 - 1 := by
  obtain ⟨hm, _, hx, hy⟩ :=
    (C10_normalized_event mouse_global_in_widget cb_idle 0 ev_press w_scn).2.2.2.2
      dl_scn_down (by decide)
  exact ⟨by decide, by decide, by decide, by decide, by decide, hm, by decide,
    hx (by decide) (by decide), hy (by decide) (by decide)⟩

/-- C11: on a widget with forced_capture set, the whole outcome is the same for any two bounds
tests; and it is the outcome of the widget without the flag under a bounds test answering
true: same remembered mask, raw event, first message and record, number of deliveries, and,
for a callback that neither reads nor writes the flag, same returned value, capture, messages
and records, the widget on return differing in the flag only. -/
theorem C11_forced_capture (inb inb2 inbT : Gpm_Event → Widget → Bool)
    (cb : easy_mouse_callback) (lbd : Nat) (e : Gpm_Event) (w : Widget)
    (hf : w.Mouse.forced_capture = true)
    (hT : inbT e (set_forced false w) = true) :
    easy_mouse_translator inb cb lbd e w = easy_mouse_translator inb2 cb lbd e w
    ∧ (easy_mouse_translator inb cb lbd e w).last_buttons_down
        = (easy_mouse_translator inbT cb lbd e (set_forced false w)).last_buttons_down
    ∧ (easy_mouse_translator inb cb lbd e w).event
        = (easy_mouse_translator inbT cb lbd e (set_forced false w)).event
    ∧ (easy_mouse_translator inb cb lbd e w).calls.head?.map (fun d => (d.msg, d.event))
        = (easy_mouse_translator inbT cb lbd e (set_forced false w)).calls.head?.map
            (fun d => (d.msg, d.event))
    ∧ (easy_mouse_translator inb cb lbd e w).calls.length
        = (easy_mouse_translator inbT cb lbd e (set_forced false w)).calls.length
    ∧ (ignores_forced cb →
        (easy_mouse_translator inb cb lbd e w).ret
          = (easy_mouse_translator inbT cb lbd e (set_forced false w)).ret
        ∧ (easy_mouse_translator inb cb lbd e w).w
          = set_forced true (easy_mouse_translator inbT cb lbd e (set_forced false w)).w
        ∧ (easy_mouse_translator inb cb lbd e w).w.Mouse.capture
          = (easy_mouse_translator inbT cb lbd e (set_forced false w)).w.Mouse.capture
        ∧ (easy_mouse_translator inb cb lbd e w).calls.map (fun d => (d.msg, d.event))
          = (easy_mouse_translator inbT cb lbd e (set_forced false w)).calls.map
              (fun d => (d.msg, d.event))) := by
  refine ⟨?_, ?_⟩
  · simp only [easy_mouse_translator, classify_forced_any inb inb2 lbd e w hf]
  have hc := classify_forced inb inbT lbd e w hf hT
  have hi : ∀ m ev x, init_mouse_event m ev (set_forced true x) = init_mouse_event m ev x :=
    fun _ _ _ => rfl
  have hcap : ∀ x, (set_forced true x).Mouse.capture = x.Mouse.capture := fun _ => rfl
  cases hm : (classify inbT lbd e (set_forced false w)).msg with
  | none =>
    have hm1 : (classify inb lbd e w).msg = none := by rw [hc]; exact hm
    rw [translator_of_none inb cb lbd e w hm1, translator_of_none inbT cb lbd e _ hm]
    refine ⟨?_, ?_, ?_, ?_, ?_⟩
    · simp only [hc]
    · simp only [hc]
    · simp
    · simp
    · intro _
      simp only [hc, hcap, List.map_nil, and_self]
  | some m =>
    have hm1 : (classify inb lbd e w).msg = some m := by rw [hc]; exact hm
    cases hr : (classify inbT lbd e (set_forced false w)).run_click
    · have hr1 : (classify inb lbd e w).run_click = false := by rw [hc]; exact hr
      rw [translator_of_single inb cb lbd e w m hm1 hr1,
        translator_of_single inbT cb lbd e _ m hm hr]
      refine ⟨?_, ?_, ?_, ?_, ?_⟩
      · simp only [hc]
      · simp only [hc]
      · simp [hc, hi]
      · simp
      · intro hcb
        simp only [hc, hi, hcb true, hcap, List.map_cons, List.map_nil, and_self]
    · have hr1 : (classify inb lbd e w).run_click = true := by rw [hc]; exact hr
      rw [translator_of_click inb cb lbd e w m hm1 hr1,
        translator_of_click inbT cb lbd e _ m hm hr]
      refine ⟨?_, ?_, ?_, ?_, ?_⟩
      · simp only [hc]
      · simp only [hc]
      · simp [hc, hi]
      · simp
      · intro hcb
        simp only [hc, hi, hcb true, hcap, List.map_cons, List.map_nil, and_self]

/-- C11 witness: the forced-capture widget and a release far outside its rectangle; without
the flag and with a bounds test answering true the outcome is the same. -/
theorem C11_forced_capture_witness :
    ignores_forced cb_idle
    ∧ mouse_global_in_widget ev_release_far w_forced = false
    ∧ easy_mouse_translator mouse_global_in_widget cb_idle 0 ev_release_far w_forced
        = easy_mouse_translator (fun _ _ => true) cb_idle 0 ev_release_far w_forced
    ∧ (easy_mouse_translator mouse_global_in_widget cb_idle 0 ev_release_far w_forced).ret
        = (easy_mouse_translator (fun _ _ => true) cb_idle 0 ev_release_far
            (set_forced false w_forced)).ret
    ∧ (easy_mouse_translator mouse_global_in_widget cb_idle 0 ev_release_far w_forced).calls.map
          (fun d => (d.msg, d.event))
        = (easy_mouse_translator (fun _ _ => true) cb_idle 0 ev_release_far
            (set_forced false w_forced)).calls.map (fun d => (d.msg, d.event)) :=
  ⟨cb_idle_ignores_forced, by decide,
    (C11_forced_capture mouse_global_in_widget (fun _ _ => true) (fun _ _ => true) cb_idle 0
      ev_release_far w_forced rfl rfl).1,
    ((C11_forced_capture mouse_global_in_widget (fun _ _ => true) (fun _ _ => true) cb_idle 0
      ev_release_far w_forced rfl rfl).2.2.2.2.2 cb_idle_ignores_forced).1,
    ((C11_forced_capture mouse_global_in_widget (fun _ _ => true) (fun _ _ => true) cb_idle 0
      ev_release_far w_forced rfl rfl).2.2.2.2.2 cb_idle_ignores_forced).2.2.2⟩

/-- C12, as stated, fails: an empty-mask release processed while the capture flag is set leaves
the remembered mask in the raw event's button mask; the raw event on return is not the one
given. -/
theorem C12_counterexample :
    ev_release0.buttons = 0
    ∧ (easy_mouse_translator mouse_global_in_widget cb_idle GPM_B_LEFT ev_release0
        w_scn_captured).event.buttons = GPM_B_LEFT
    ∧ (easy_mouse_translator mouse_global_in_widget cb_idle GPM_B_LEFT ev_release0
        w_scn_captured).event ≠ ev_release0 := by
  decide

/-- C12, amended: on return the raw event's type and coordinates are the ones given, and so is
its button mask, except for a release (release bit, no press bit) with an empty mask processed
while the capture flag is set: its button mask then holds `last_buttons_down`. -/
theorem C12_raw_event_frame (inb : Gpm_Event → Widget → Bool) (cb : easy_mouse_callback)
    (lbd : Nat) (e : Gpm_Event) (w : Widget) :
    (easy_mouse_translator inb cb lbd e w).event.type = e.type
    ∧ (easy_mouse_translator inb cb lbd e w).event.x = e.x
    ∧ (easy_mouse_translator inb cb lbd e w).event.y = e.y
    ∧ (easy_mouse_translator inb cb lbd e w).event.buttons =
        if e.type &&& GPM_DOWN = 0 ∧ e.type &&& GPM_UP ≠ 0 ∧ w.Mouse.capture = true
            ∧ e.buttons = 0
        then lbd else e.buttons := by
  rw [translator_event, classify_event]
  split_ifs <;> simp

/-- C13: the capture flag on return, for a callback that does not write it: set after a press
with a non-wheel button in the widget (in bounds, or forced_capture set), clear after a release
(release bit, no press bit) processed while it was set, and as before after any other event.
So it goes from clear to set only on such a press, and from set to clear only on such a
release. -/
theorem C13_capture_transitions (inb : Gpm_Event → Widget → Bool) (cb : easy_mouse_callback)
    (lbd : Nat) (e : Gpm_Event) (w : Widget) (hcb : keeps_capture cb) :
    ((easy_mouse_translator inb cb lbd e w).w.Mouse.capture =
        if e.type &&& GPM_DOWN ≠ 0 ∧ e.buttons &&& GPM_B_UP = 0 ∧ e.buttons &&& GPM_B_DOWN = 0
            ∧ (inb e w = true ∨ w.Mouse.forced_capture = true)
        then true
        else if e.type &&& GPM_DOWN = 0 ∧ e.type &&& GPM_UP ≠ 0 ∧ w.Mouse.capture = true
        then false
        else w.Mouse.capture)
    ∧ (w.Mouse.capture = false →
        (easy_mouse_translator inb cb lbd e w).w.Mouse.capture = true →
        e.type &&& GPM_DOWN ≠ 0 ∧ e.buttons &&& GPM_B_UP = 0 ∧ e.buttons &&& GPM_B_DOWN = 0
          ∧ (inb e w = true ∨ w.Mouse.forced_capture = true))
    ∧ (w.Mouse.capture = true →
        (easy_mouse_translator inb cb lbd e w).w.Mouse.capture = false →
        e.type &&& GPM_DOWN = 0 ∧ e.type &&& GPM_UP ≠ 0)
    ∧ (¬ (e.type &&& GPM_DOWN ≠ 0 ∧ e.buttons &&& GPM_B_UP = 0 ∧ e.buttons &&& GPM_B_DOWN = 0
            ∧ (inb e w = true ∨ w.Mouse.forced_capture = true)) →
        ¬ (e.type &&& GPM_DOWN = 0 ∧ e.type &&& GPM_UP ≠ 0 ∧ w.Mouse.capture = true) →
        (easy_mouse_translator inb cb lbd e w).w.Mouse.capture = w.Mouse.capture) := by
  rw [translator_capture inb cb hcb, classify_capture]
  refine ⟨rfl, ?_, ?_, ?_⟩
  · intro h0 h1
    split_ifs at h1 with hp hr
    · exact hp
    · simp [h0] at h1
  · intro h0 h1
    split_ifs at h1 with hp hr
    · exact ⟨hr.1, hr.2.1⟩
    · simp [h0] at h1
  · intro hp hr
    rw [if_neg hp, if_neg hr]

/-- C13 witness: on the scenario's widget the press sets the capture flag; on the widget
holding the capture a drag far outside leaves it set and the release clears it. -/
theorem C13_capture_transitions_witness :
    keeps_capture cb_idle
    ∧ (easy_mouse_translator mouse_global_in_widget cb_idle 0 ev_press w_scn).w.Mouse.capture
        = true
    ∧ (easy_mouse_translator mouse_global_in_widget cb_idle 4 ev_drag_far
        w_scn_captured).w.Mouse.capture = true
    ∧ (easy_mouse_translator mouse_global_in_widget cb_idle 4 ev_release0
        w_scn_captured).w.Mouse.capture = false :=
  ⟨cb_idle_keeps_capture,
    by rw [(C13_capture_transitions mouse_global_in_widget cb_idle 0 ev_press w_scn
        cb_idle_keeps_capture).1]; decide,
    (C13_capture_transitions mouse_global_in_widget cb_idle 4 ev_drag_far w_scn_captured
        cb_idle_keeps_capture).2.2.2 (by decide) (by decide),
    by rw [(C13_capture_transitions mouse_global_in_widget cb_idle 4 ev_release0 w_scn_captured
        cb_idle_keeps_capture).1]; decide⟩

/-- C14, as stated, fails: press left in widget `A`, press right in widget `B`, then an
empty-mask release processed by `A` while `A` holds the capture: `A`'s Up and Click carry the
right button, the mask recorded by the press `B` processed, not the left button of the most
recent capture-acquiring press `A` processed. -/
theorem C14_counterexample :
    (pair_after mouse_global_in_widget cb_idle cb_idle
        { wA := w_scn, wB := w_other, last_buttons_down := 0 } es_interleaved).wA.Mouse.capture
      = true
    ∧ ev_release0.buttons = 0
    ∧ last_press_mask_of Target.A none
        (run_pair mouse_global_in_widget cb_idle cb_idle
          { wA := w_scn, wB := w_other, last_buttons_down := 0 } es_interleaved)
      = some GPM_B_LEFT
    ∧ ((route_pair mouse_global_in_widget cb_idle cb_idle
          (pair_after mouse_global_in_widget cb_idle cb_idle
            { wA := w_scn, wB := w_other, last_buttons_down := 0 } es_interleaved)
          Target.A ev_release0).calls.map (fun d => (d.msg, d.event.buttons)))
      = [(MSG_MOUSE_UP, GPM_B_RIGHT), (MSG_MOUSE_CLICK, GPM_B_RIGHT)]
    ∧ GPM_B_RIGHT ≠ GPM_B_LEFT := by
  decide

/-- C14, amended: for every interleaved sequence of events routed to two widgets `A` and `B`
(`A` starting without capture, its callback not writing the capture flag), when an empty-mask
release is processed by `A` while `A` holds the capture, the mask carried by `A`'s Up (and
Click, the callback leaving the mask of the record alone) is the mask of the most recent press
that dispatched a Down, whichever of the two widgets processed it; it is the mask of `A`'s own
most recent such press when that press is the most recent of both widgets. -/
theorem C14_shared_mask (inb : Gpm_Event → Widget → Bool) (cbA cbB : easy_mouse_callback)
    (s0 : Pair) (es : List (Target × Gpm_Event)) (e : Gpm_Event)
    (hcb : keeps_capture cbA)
    (h0 : s0.wA.Mouse.capture = false)
    (hcap : (pair_after inb cbA cbB s0 es).wA.Mouse.capture = true)
    (hrel : e.type &&& GPM_UP ≠ 0) (hnopress : e.type &&& GPM_DOWN = 0)
    (hempty : e.buttons = 0) :
    ∃ m, last_press_mask_any none (run_pair inb cbA cbB s0 es) = some m
      ∧ (∃ d, (route_pair inb cbA cbB (pair_after inb cbA cbB s0 es) Target.A e).calls.head?
              = some d
            ∧ d.msg = MSG_MOUSE_UP ∧ d.event.buttons = m)
      ∧ (keeps_buttons cbA →
          ∀ d ∈ (route_pair inb cbA cbB (pair_after inb cbA cbB s0 es) Target.A e).calls,
            d.event.buttons = m)
      ∧ (last_press_target none (run_pair inb cbA cbB s0 es) = some Target.A →
          last_press_mask_of Target.A none (run_pair inb cbA cbB s0 es) = some m) := by
  have hmask := pair_press_mask inb cbA cbB hcb es s0 none (by simp [h0]) hcap
  refine ⟨(pair_after inb cbA cbB s0 es).last_buttons_down, hmask, ?_, ?_, ?_⟩
  · simp only [route_pair]
    generalize (pair_after inb cbA cbB s0 es).last_buttons_down = lbd at *
    generalize (pair_after inb cbA cbB s0 es).wA = w at *
    have hc : classify inb lbd e w =
        { w := { w with Mouse := { w.Mouse with capture := false } },
          event := { e with buttons := lbd },
          last_buttons_down := lbd, msg := some MSG_MOUSE_UP,
          run_click := if w.Mouse.forced_capture then true else inb e w } := by
      simp [classify, hrel, hnopress, hcap, hempty]
    simp only [easy_mouse_translator, hc]
    split_ifs <;> simp [init_mouse_event]
  · simp only [route_pair]
    generalize (pair_after inb cbA cbB s0 es).last_buttons_down = lbd at *
    generalize (pair_after inb cbA cbB s0 es).wA = w at *
    have hc : classify inb lbd e w =
        { w := { w with Mouse := { w.Mouse with capture := false } },
          event := { e with buttons := lbd },
          last_buttons_down := lbd, msg := some MSG_MOUSE_UP,
          run_click := if w.Mouse.forced_capture then true else inb e w } := by
      simp [classify, hrel, hnopress, hcap, hempty]
    simp only [easy_mouse_translator, hc]
    intro hkb
    split_ifs <;> simp [init_mouse_event, hkb _ _ _]
  · intro ht
    rw [← hmask]
    exact (last_press_mask_of_target _ none none none (fun h => by cases h) ht).symm

/-- C14 witness: press left in `A`, a press far outside `B` that dispatches nothing there,
then the empty-mask release in `A`: the Up carries the left button, the mask of `A`'s own
press. -/
theorem C14_shared_mask_witness :
    ∃ m, last_press_mask_any none
          (run_pair mouse_global_in_widget cb_idle cb_idle
            { wA := w_scn, wB := w_other, last_buttons_down := 0 }
            [(Target.A, ev_press), (Target.B, ev_wheel_up_far)]) = some m
      ∧ (∃ d, (route_pair mouse_global_in_widget cb_idle cb_idle
                (pair_after mouse_global_in_widget cb_idle cb_idle
                  { wA := w_scn, wB := w_other, last_buttons_down := 0 }
                  [(Target.A, ev_press), (Target.B, ev_wheel_up_far)])
                Target.A ev_release0).calls.head? = some d
            ∧ d.msg = MSG_MOUSE_UP ∧ d.event.buttons = m)
      ∧ (keeps_buttons cb_idle →
          ∀ d ∈ (route_pair mouse_global_in_widget cb_idle cb_idle
                  (pair_after mouse_global_in_widget cb_idle cb_idle
                    { wA := w_scn, wB := w_other, last_buttons_down := 0 }
                    [(Target.A, ev_press), (Target.B, ev_wheel_up_far)])
                  Target.A ev_release0).calls,
            d.event.buttons = m)
      ∧ (last_press_target none
            (run_pair mouse_global_in_widget cb_idle cb_idle
              { wA := w_scn, wB := w_other, last_buttons_down := 0 }
              [(Target.A, ev_press), (Target.B, ev_wheel_up_far)]) = some Target.A →
          last_press_mask_of Target.A none
            (run_pair mouse_global_in_widget cb_idle cb_idle
              { wA := w_scn, wB := w_other, last_buttons_down := 0 }
              [(Target.A, ev_press), (Target.B, ev_wheel_up_far)]) = some m) :=
  C14_shared_mask mouse_global_in_widget cb_idle cb_idle
    { wA := w_scn, wB := w_other, last_buttons_down := 0 }
    [(Target.A, ev_press), (Target.B, ev_wheel_up_far)] ev_release0
    cb_idle_keeps_capture rfl (by decide) (by decide) (by decide) rfl

/-- C15: a press (any button mask) whose pointer is outside the widget's bounds, on a widget
without forced_capture: the callback is not invoked, the value returned is `MOU_UNHANDLED`,
and the widget (its capture flag with it), `last_buttons_down` and the raw event are as
before. -/
theorem C15_press_outside (inb : Gpm_Event → Widget → Bool) (cb : easy_mouse_callback)
    (lbd : Nat) (e : Gpm_Event) (w : Widget)
    (hpress : e.type &&& GPM_DOWN ≠ 0)
    (hout : inb e w = false) (hnf : w.Mouse.forced_capture = false) :
    easy_mouse_translator inb cb lbd e w =
      { ret := MOU_UNHANDLED, w := w, last_buttons_down := lbd, event := e, calls := [] } := by
  simp [easy_mouse_translator, classify, hpress, hout, hnf]

/-- C15 witness: presses far outside the scenario's widget, left button and wheel, with and
without capture. -/
theorem C15_press_outside_witness :
    easy_mouse_translator mouse_global_in_widget cb_idle 7 ev_wheel_up_far w_scn =
      { ret := MOU_UNHANDLED, w := w_scn, last_buttons_down := 7, event := ev_wheel_up_far,
        calls := [] }
    ∧ easy_mouse_translator mouse_global_in_widget cb_idle 7
        { ev_release_far with type := GPM_DOWN } w_scn_captured =
      { ret := MOU_UNHANDLED, w := w_scn_captured, last_buttons_down := 7,
        event := { ev_release_far with type := GPM_DOWN }, calls := [] } :=
  ⟨C15_press_outside mouse_global_in_widget cb_idle 7 ev_wheel_up_far w_scn (by decide)
      (by decide) rfl,
   C15_press_outside mouse_global_in_widget cb_idle 7 { ev_release_far with type := GPM_DOWN }
      w_scn_captured (by decide) (by decide) rfl⟩

/-- C16: a release (release bit, no press bit) processed while the capture flag is clear
invokes no callback, returns `MOU_UNHANDLED` and leaves the widget, `last_buttons_down` and
the raw event as they were. And whatever the capture flag was, once a release has been
processed the next release dispatches nothing (the callback not writing the capture flag). -/
theorem C16_release_uncaptured (inb : Gpm_Event → Widget → Bool) (cb : easy_mouse_callback)
    (lbd : Nat) (e e2 : Gpm_Event) (w : Widget)
    (hrel : e.type &&& GPM_UP ≠ 0) (hnopress : e.type &&& GPM_DOWN = 0)
    (hrel2 : e2.type &&& GPM_UP ≠ 0) (hnopress2 : e2.type &&& GPM_DOWN = 0) :
    (w.Mouse.capture = false →
      easy_mouse_translator inb cb lbd e w =
        { ret := MOU_UNHANDLED, w := w, last_buttons_down := lbd, event := e, calls := [] })
    ∧ (keeps_capture cb →
        (easy_mouse_translator inb cb lbd e w).w.Mouse.capture = false
        ∧ (easy_mouse_translator inb cb
            (easy_mouse_translator inb cb lbd e w).last_buttons_down e2
            (easy_mouse_translator inb cb lbd e w).w).calls = []
        ∧ (easy_mouse_translator inb cb
            (easy_mouse_translator inb cb lbd e w).last_buttons_down e2
            (easy_mouse_translator inb cb lbd e w).w).ret = MOU_UNHANDLED) := by
  have h1 : ∀ (l : Nat) (ev : Gpm_Event) (x : Widget), ev.type &&& GPM_UP ≠ 0 →
      ev.type &&& GPM_DOWN = 0 → x.Mouse.capture = false →
      easy_mouse_translator inb cb l ev x =
        { ret := MOU_UNHANDLED, w := x, last_buttons_down := l, event := ev, calls := [] } := by
    intro l ev x hr hp hc
    simp [easy_mouse_translator, classify, hr, hp, hc]
  refine ⟨h1 lbd e w hrel hnopress, ?_⟩
  intro hcb
  have hcap : (easy_mouse_translator inb cb lbd e w).w.Mouse.capture = false := by
    rw [translator_capture inb cb hcb, classify_capture]
    cases hc : w.Mouse.capture <;> simp [hrel, hnopress]
  refine ⟨hcap, ?_, ?_⟩
  · rw [h1 _ e2 _ hrel2 hnopress2 hcap]
  · rw [h1 _ e2 _ hrel2 hnopress2 hcap]

/-- C16 witness: the scenario's release on the widget not capturing; and on the widget holding
the capture, the same release processed twice: nothing the second time. -/
theorem C16_release_uncaptured_witness :
    easy_mouse_translator mouse_global_in_widget cb_idle 4 ev_release0 w_scn =
        { ret := MOU_UNHANDLED, w := w_scn, last_buttons_down := 4, event := ev_release0,
          calls := [] }
    ∧ keeps_capture cb_idle
    ∧ (easy_mouse_translator mouse_global_in_widget cb_idle 4 ev_release0
        w_scn_captured).calls.map Delivery.msg = [MSG_MOUSE_UP, MSG_MOUSE_CLICK]
    ∧ (easy_mouse_translator mouse_global_in_widget cb_idle
        (easy_mouse_translator mouse_global_in_widget cb_idle 4 ev_release0
          w_scn_captured).last_buttons_down ev_release0
        (easy_mouse_translator mouse_global_in_widget cb_idle 4 ev_release0
          w_scn_captured).w).calls = [] :=
  ⟨(C16_release_uncaptured mouse_global_in_widget cb_idle 4 ev_release0 ev_release0 w_scn
      (by decide) (by decide) (by decide) (by decide)).1 rfl,
   cb_idle_keeps_capture,
   by decide,
   ((C16_release_uncaptured mouse_global_in_widget cb_idle 4 ev_release0 ev_release0
      w_scn_captured (by decide) (by decide) (by decide) (by decide)).2
        cb_idle_keeps_capture).2.1⟩

/-- C17: `set_easy_mouse_callback` stores `easy_mouse_translator` in the slot `w->mouse` and
the callback in `w->Mouse.callback`, and leaves the widget's data members (capture flag,
forced_capture flag, geometry) and `last_buttons_down` as they were; a widget holding the
capture still holds it; binding twice is binding the last callback; and an event routed to a
bound widget runs `easy_mouse_translator` with that callback. -/
theorem C17_set_easy_mouse_callback (s : BoundWidget) (cb cb2 : Option easy_mouse_callback) :
    (set_easy_mouse_callback s cb).mouse = some easy_mouse_translator
    ∧ (set_easy_mouse_callback s cb).callback = cb
    ∧ (set_easy_mouse_callback s cb).w = s.w
    ∧ (set_easy_mouse_callback s cb).last_buttons_down = s.last_buttons_down
    ∧ (s.w.Mouse.capture = true → (set_easy_mouse_callback s cb).w.Mouse.capture = true)
    ∧ set_easy_mouse_callback (set_easy_mouse_callback s cb) cb2 = set_easy_mouse_callback s cb2
    ∧ (∀ (f : easy_mouse_callback) (inb : Gpm_Event → Widget → Bool) (e : Gpm_Event),
        route_event inb (set_easy_mouse_callback s (some f)) e
          = some (easy_mouse_translator inb f s.last_buttons_down e s.w)) :=
  ⟨rfl, rfl, rfl, rfl, fun h => h, rfl, fun _ _ _ => rfl⟩

/-- C17 witness: the scenario's widget holding the capture, with no handler installed, is
bound to the idle callback: it still holds the capture, the remembered mask is as before, and
the scenario's release routed to it gives Up then Click. -/
theorem C17_set_easy_mouse_callback_witness :
    (set_easy_mouse_callback
        { last_buttons_down := 4, w := w_scn_captured, mouse := none, callback := none }
        (some cb_idle)).w.Mouse.capture = true
    ∧ (set_easy_mouse_callback
        { last_buttons_down := 4, w := w_scn_captured, mouse := none, callback := none }
        (some cb_idle)).last_buttons_down = 4
    ∧ (route_event mouse_global_in_widget
        (set_easy_mouse_callback
          { last_buttons_down := 4, w := w_scn_captured, mouse := none, callback := none }
          (some cb_idle)) ev_release0).map (fun o => o.calls.map Delivery.msg)
        = some [MSG_MOUSE_UP, MSG_MOUSE_CLICK] :=
  ⟨(C17_set_easy_mouse_callback
      { last_buttons_down := 4, w := w_scn_captured, mouse := none, callback := none }
      (some cb_idle) none).2.2.2.2.1 rfl,
   (C17_set_easy_mouse_callback
      { last_buttons_down := 4, w := w_scn_captured, mouse := none, callback := none }
      (some cb_idle) none).2.2.2.1,
   by decide⟩

/-- C18: the outcome for an event is the outcome for the same event with every type bit of
lower precedence than the highest one present cleared (press, then release, then drag, then
move), the bounds test answering the same for both: same returned value, widget, remembered
mask, deliveries, and same raw event on return but for its own type bits. So a press that also
has the release bit dispatches no Up on a capturing widget and leaves the capture flag set (the
callback not writing it), and a press outside the widget that also has the drag bit dispatches
nothing. -/
theorem C18_type_precedence (inb : Gpm_Event → Widget → Bool) (cb : easy_mouse_callback)
    (lbd : Nat) (e : Gpm_Event) (w : Widget) :
    (inb { e with type := highest_type_only e.type } w = inb e w →
      easy_mouse_translator inb cb lbd { e with type := highest_type_only e.type } w =
        { ret := (easy_mouse_translator inb cb lbd e w).ret,
          w := (easy_mouse_translator inb cb lbd e w).w,
          last_buttons_down := (easy_mouse_translator inb cb lbd e w).last_buttons_down,
          event := { (easy_mouse_translator inb cb lbd e w).event with
                      type := highest_type_only e.type },
          calls := (easy_mouse_translator inb cb lbd e w).calls })
    ∧ (e.type &&& GPM_DOWN ≠ 0 → e.type &&& GPM_UP ≠ 0 → w.Mouse.capture = true →
        (∀ d ∈ (easy_mouse_translator inb cb lbd e w).calls, d.msg ≠ MSG_MOUSE_UP)
        ∧ (keeps_capture cb → (easy_mouse_translator inb cb lbd e w).w.Mouse.capture = true))
    ∧ (e.type &&& GPM_DOWN ≠ 0 → e.type &&& GPM_DRAG ≠ 0 →
        inb e w = false → w.Mouse.forced_capture = false →
        (easy_mouse_translator inb cb lbd e w).calls = []) := by
  refine ⟨?_, ?_, ?_⟩
  · intro hb
    obtain ⟨h1, h2, h3, h4, h5⟩ := highest_type_only_keeps e.type
    exact translator_congr_type inb cb lbd e w _ hb h1 h2 h3 h4 h5
  · intro hp _ hcap
    refine ⟨?_, ?_⟩
    · intro d hd
      rcases classify_cases inb lbd e w with h | ⟨m, hm1, hm2, hm3, h⟩ | h | ⟨_, rc, h⟩
      · simp [easy_mouse_translator, h] at hd
      · simp only [easy_mouse_translator, h, Bool.false_eq_true, if_false,
          List.mem_singleton] at hd
        subst hd
        exact hm2
      · simp only [easy_mouse_translator, h, Bool.false_eq_true, if_false,
          List.mem_singleton] at hd
        subst hd
        simp
      · have hm : (classify inb lbd e w).msg ≠ some MSG_MOUSE_UP := by
          simp only [classify, hp]
          split_ifs <;> simp
        rw [h] at hm
        exact absurd rfl hm
    · intro hcb
      rw [translator_capture inb cb hcb, classify_capture]
      split_ifs with ha hb
      · rfl
      · exact absurd hb.1 hp
      · exact hcap
  · intro hp _ hout hnf
    simp [easy_mouse_translator, classify, hp, hout, hnf]

/-- C18 witness: an event with the press and the release bit on the scenario's widget holding
the capture is treated as the press alone; a press with the drag bit far outside dispatches
nothing. -/
theorem C18_type_precedence_witness :
    highest_type_only ev_press_release.type = GPM_DOWN
    ∧ easy_mouse_translator mouse_global_in_widget cb_idle 0
          { ev_press_release with type := highest_type_only ev_press_release.type }
          w_scn_captured =
        { ret := (easy_mouse_translator mouse_global_in_widget cb_idle 0 ev_press_release
            w_scn_captured).ret,
          w := (easy_mouse_translator mouse_global_in_widget cb_idle 0 ev_press_release
            w_scn_captured).w,
          last_buttons_down := (easy_mouse_translator mouse_global_in_widget cb_idle 0
            ev_press_release w_scn_captured).last_buttons_down,
          event := { (easy_mouse_translator mouse_global_in_widget cb_idle 0 ev_press_release
            w_scn_captured).event with type := highest_type_only ev_press_release.type },
          calls := (easy_mouse_translator mouse_global_in_widget cb_idle 0 ev_press_release
            w_scn_captured).calls }
    ∧ (easy_mouse_translator mouse_global_in_widget cb_idle 0 ev_press_release
        w_scn_captured).calls.map Delivery.msg = [MSG_MOUSE_DOWN]
    ∧ (easy_mouse_translator mouse_global_in_widget cb_idle 0 ev_press_release
        w_scn_captured).w.Mouse.capture = true
    ∧ (easy_mouse_translator mouse_global_in_widget cb_idle 0 ev_press_drag_far
        w_scn_captured).calls = [] :=
  ⟨by decide,
   (C18_type_precedence mouse_global_in_widget cb_idle 0 ev_press_release w_scn_captured).1
      (by decide),
   by decide,
   ((C18_type_precedence mouse_global_in_widget cb_idle 0 ev_press_release
      w_scn_captured).2.1 (by decide) (by decide) rfl).2 cb_idle_keeps_capture,
   (C18_type_precedence mouse_global_in_widget cb_idle 0 ev_press_drag_far
      w_scn_captured).2.2 (by decide) (by decide) (by decide) rfl⟩

/-- C19: the callback is invoked at most twice for one raw event, and twice only for an Up
followed by a Click. The Click is then handed the widget and the record exactly as the callback
left them at the Up: nothing is initialised again, so the result flags written during the Up
are the ones the Click delivery sees, and local coordinates, click count and button mask are
those of the Up when the callback writes to the result only. -/
theorem C19_shared_record (inb : Gpm_Event → Widget → Bool) (cb : easy_mouse_callback)
    (lbd : Nat) (e : Gpm_Event) (w : Widget) :
    (easy_mouse_translator inb cb lbd e w).calls.length ≤ 2
    ∧ (∀ d1 d2 rest, (easy_mouse_translator inb cb lbd e w).calls = d1 :: d2 :: rest →
        rest = []
        ∧ d1.msg = MSG_MOUSE_UP ∧ d2.msg = MSG_MOUSE_CLICK
        ∧ d2.w = (cb d1.w d1.msg d1.event).1
        ∧ d2.event = (cb d1.w d1.msg d1.event).2
        ∧ d2.event.result = (cb d1.w d1.msg d1.event).2.result
        ∧ (writes_result_only cb →
            d2.event.x = d1.event.x ∧ d2.event.y = d1.event.y
            ∧ d2.event.count = d1.event.count ∧ d2.event.buttons = d1.event.buttons)) := by
  rcases classify_cases inb lbd e w with h | ⟨m, _, _, _, h⟩ | h | ⟨_, rc, h⟩
  · simp [easy_mouse_translator, h]
  · simp [easy_mouse_translator, h]
  · simp [easy_mouse_translator, h]
  · cases rc
    · simp [easy_mouse_translator, h]
    · simp only [easy_mouse_translator, h, if_true]
      refine ⟨by simp, ?_⟩
      intro d1 d2 rest hl
      simp only [List.cons.injEq] at hl
      obtain ⟨h1, h2, h3⟩ := hl
      subst h1 h2
      refine ⟨h3.symm, rfl, rfl, rfl, rfl, rfl, ?_⟩
      intro hw
      obtain ⟨_, hx, hy, hcnt, hbt⟩ := hw
        { w with Mouse := { w.Mouse with capture := false } } MSG_MOUSE_UP
        (init_mouse_event MSG_MOUSE_UP
          (if e.buttons = 0 then { e with buttons := lbd } else e)
          { w with Mouse := { w.Mouse with capture := false } })
      exact ⟨hx, hy, hcnt, hbt⟩

/-- C19 witness: the scenario's release on the widget holding the capture, with a callback that
asks for a repeat during the Up: two deliveries, the Click handed the record with the repeat
flag set and with the coordinates, count and mask of the Up. -/
theorem C19_shared_record_witness :
    writes_result_only cb_repeat_on_up
    ∧ (easy_mouse_translator mouse_global_in_widget cb_repeat_on_up 4 ev_release0
          w_scn_captured).calls = [dl_scn_up, dl_scn_click]
    ∧ dl_scn_up.event.result.«repeat» = false
    ∧ dl_scn_click.event.result.«repeat» = true
    ∧ (dl_scn_click.event.x = dl_scn_up.event.x ∧ dl_scn_click.event.y = dl_scn_up.event.y
        ∧ dl_scn_click.event.count = dl_scn_up.event.count
        ∧ dl_scn_click.event.buttons = dl_scn_up.event.buttons) :=
  ⟨cb_repeat_on_up_writes_result_only, by decide, by decide, by decide,
   ((C19_shared_record mouse_global_in_widget cb_repeat_on_up 4 ev_release0 w_scn_captured).2
      dl_scn_up dl_scn_click [] (by decide)).2.2.2.2.2.2 cb_repeat_on_up_writes_result_only⟩

/-- C20: for every sequence of raw events processed on one widget that starts without capture
(the callback not writing the capture flag): after each event the capture flag is set if and
only if the stream of messages dispatched so far has a Down with no Up after it; in the whole
stream every Up and every Drag has before it a Down with no Up in between; between two Up
messages there is a Down; and every raw event dispatches nothing, one message that is not a
Click, or an Up immediately followed by a Click. -/
theorem C20_capture_lifecycle (inb : Gpm_Event → Widget → Bool) (cb : easy_mouse_callback)
    (lbd0 : Nat) (w0 : Widget) (es : List Gpm_Event)
    (hcb : keeps_capture cb) (h0 : w0.Mouse.capture = false) :
    (∀ n, (state_after inb cb lbd0 w0 (es.take n)).1.Mouse.capture = true ↔
        ∃ l1 l2, message_stream (run_events inb cb lbd0 w0 (es.take n))
            = l1 ++ MSG_MOUSE_DOWN :: l2 ∧ MSG_MOUSE_UP ∉ l2)
    ∧ (∀ pre m post, message_stream (run_events inb cb lbd0 w0 es) = pre ++ m :: post →
        m = MSG_MOUSE_UP ∨ m = MSG_MOUSE_DRAG →
        ∃ l1 l2, pre = l1 ++ MSG_MOUSE_DOWN :: l2 ∧ MSG_MOUSE_UP ∉ l2)
    ∧ (∀ pre mid post, message_stream (run_events inb cb lbd0 w0 es)
          = pre ++ MSG_MOUSE_UP :: (mid ++ MSG_MOUSE_UP :: post) →
        MSG_MOUSE_DOWN ∈ mid)
    ∧ (∀ p ∈ run_events inb cb lbd0 w0 es,
        p.2.calls.map Delivery.msg = []
        ∨ p.2.calls.map Delivery.msg = [MSG_MOUSE_UP, MSG_MOUSE_CLICK]
        ∨ ∃ m, m ≠ MSG_MOUSE_CLICK ∧ p.2.calls.map Delivery.msg = [m]) := by
  have hfalse : ∀ l, armed false l = true ↔
      ∃ l1 l2, l = l1 ++ MSG_MOUSE_DOWN :: l2 ∧ MSG_MOUSE_UP ∉ l2 := by
    intro l
    rw [armed_iff]
    simp
  obtain ⟨hok, _⟩ := trace_lifecycle inb cb hcb es lbd0 w0
  rw [h0] at hok
  refine ⟨?_, ?_, ?_, ?_⟩
  · intro n
    obtain ⟨_, harm⟩ := trace_lifecycle inb cb hcb (es.take n) lbd0 w0
    rw [h0] at harm
    rw [← harm, hfalse]
  · intro pre m post hl hm
    exact (hfalse pre).1 (armed_of_ok false _ pre post m hok hl hm)
  · intro pre mid post hl
    have hl2 : message_stream (run_events inb cb lbd0 w0 es)
        = (pre ++ [MSG_MOUSE_UP]) ++ (mid ++ MSG_MOUSE_UP :: post) := by
      rw [hl]
      simp
    rw [hl2, lifecycle_ok_append, armed_append] at hok
    simp only [Bool.and_eq_true] at hok
    have hmid : armed false mid = true := by
      have h2 := hok.2
      simp only [armed, if_true] at h2
      exact armed_of_ok false _ mid post MSG_MOUSE_UP h2 rfl (Or.inl rfl)
    obtain ⟨l1, l2, h1, _⟩ := (hfalse mid).1 hmid
    rw [h1]
    simp
  · intro p hp
    obtain ⟨l, x, hx⟩ := mem_run_events inb cb es lbd0 w0 p hp
    rw [hx]
    exact call_messages inb cb l p.1 x

/-- C20 witness: on the scenario's widget, press, drag far outside, release at (15,10): the
stream is Down, Drag, Up, Click; the capture flag is set after the press and clear at the end;
the Up has the Down before it with no Up in between. -/
theorem C20_capture_lifecycle_witness :
    keeps_capture cb_idle
    ∧ message_stream (run_events mouse_global_in_widget cb_idle 0 w_scn
          [ev_press, ev_drag_far, ev_release0])
        = [MSG_MOUSE_DOWN, MSG_MOUSE_DRAG, MSG_MOUSE_UP, MSG_MOUSE_CLICK]
    ∧ (state_after mouse_global_in_widget cb_idle 0 w_scn
          ([ev_press, ev_drag_far, ev_release0].take 1)).1.Mouse.capture = true
    ∧ (state_after mouse_global_in_widget cb_idle 0 w_scn
          [ev_press, ev_drag_far, ev_release0]).1.Mouse.capture = false
    ∧ (∃ l1 l2, [MSG_MOUSE_DOWN, MSG_MOUSE_DRAG] = l1 ++ MSG_MOUSE_DOWN :: l2
          ∧ MSG_MOUSE_UP ∉ l2) :=
  ⟨cb_idle_keeps_capture, by decide,
   ((C20_capture_lifecycle mouse_global_in_widget cb_idle 0 w_scn
      [ev_press, ev_drag_far, ev_release0] cb_idle_keeps_capture rfl).1 1).2
      ⟨[], [], by decide, by decide⟩,
   by decide,
   (C20_capture_lifecycle mouse_global_in_widget cb_idle 0 w_scn
      [ev_press, ev_drag_far, ev_release0] cb_idle_keeps_capture rfl).2.1
      [MSG_MOUSE_DOWN, MSG_MOUSE_DRAG] MSG_MOUSE_UP [MSG_MOUSE_CLICK] (by decide)
      (Or.inl rfl)⟩

end Mc
